import Mathlib

/-!
Verification development for the vehicle-tracking simulator
(`src/app/page.tsx`, `src/hooks/use-websocket` of the repository).

Modelling conventions.

* JavaScript numbers are modelled by `ℚ` (coordinates, speeds, distances,
  progress ratios) and by `ℤ` for millisecond timestamps.  Within the scope
  of the verified claims every numeric operation of the source is exact
  field arithmetic, so `ℚ` is a faithful model except where a division by
  zero could occur; theorems carry explicit positivity hypotheses that rule
  those degenerate inputs out (JavaScript would produce `Infinity`/`NaN`
  there, Lean's convention is `x / 0 = 0`).
* The two trigonometric primitives `calculateDistance` (Haversine) and
  `calculateBearing` are transcendental functions of their inputs; they are
  kept as explicit function parameters `dist` and `bear` of every
  definition that calls them.  All structural theorems hold for every
  choice of these parameters; metric facts used by a theorem (triangle
  inequality, additivity) appear as explicit hypotheses.
* JavaScript truthiness on numbers (`0`, `undefined` are falsy) is modelled
  on `Option` values: an optional number is truthy iff it is present and
  non-zero.  Optional record fields of the TypeScript interfaces become
  `Option` fields.
* ISO timestamp strings (`new Date(ms).toISOString()`) are modelled by the
  instant `ms : ℤ` they denote.
-/

/-- Status strings of the source (`Vehicle.status` and
`SimulationData.status`): `"idle" | "moving" | "stopped"` at the vehicle
level and `"moving" | "delayed" | "delayed (Ns)" | "completed"` inside the
kinematics.  One inductive covers both, mirroring untyped JS strings. -/
inductive St where
  | idle : St
  | moving : St
  | stopped : St
  | delayedPlain : St
  | delayedRem (secs : ℤ) : St
  | completed : St
deriving DecidableEq, Repr

/-- `PathPoint` of `page.tsx`: `{lat, lng, isWaypoint?, waypointId?}`. -/
structure PathPoint where
  lat : ℚ
  lng : ℚ
  isWaypoint : Bool := false
  waypointId : Option ℤ := none
deriving DecidableEq, Repr

/-- `Waypoint` of `page.tsx`: `{id, name, lat, lng}` (the optional
`vehicle` back-reference is irrelevant to the claims and omitted). -/
structure Waypoint where
  id : ℤ
  name : String
  lat : ℚ
  lng : ℚ
deriving DecidableEq, Repr

def defaultPathPoint : PathPoint := { lat := 0, lng := 0 }

/-- JS truthiness of an optional number: `undefined` and `0` are falsy. -/
def truthyQ (o : Option ℚ) : Option ℚ :=
  match o with
  | none => none
  | some q => if q = 0 then none else some q

/-- JS truthiness of an optional integer (millisecond timestamp). -/
def truthyZ (o : Option ℤ) : Option ℤ :=
  match o with
  | none => none
  | some t => if t = 0 then none else some t

/-- JS `a || b` for an optional string `a` (empty string is falsy). -/
def jsOrS (o : Option String) (d : String) : String :=
  match o with
  | none => d
  | some s => if s = "" then d else s

/-- Consecutive great-circle distances along a path: the list
`[dist p₀ p₁, dist p₁ p₂, …]` built by the loops of
`calculatePathDistance` and `getPositionAlongPath` in `page.tsx`. -/
def segDistances (dist : ℚ → ℚ → ℚ → ℚ → ℚ) : List PathPoint → List ℚ
  | p :: q :: rest => dist p.lat p.lng q.lat q.lng :: segDistances dist (q :: rest)
  | _ => []

/-- `calculatePathDistance` of `page.tsx`: total of the consecutive
distances along a path. -/
def calculatePathDistance (dist : ℚ → ℚ → ℚ → ℚ → ℚ) (path : List PathPoint) : ℚ :=
  (segDistances dist path).sum

/-- Stable insertion into a list sorted ascending by `key`; a new element
goes after all elements with a key `≤` its own, exactly like the stable
ascending `Array.prototype.sort` with comparator `distA - distB`. -/
def insertByKey {α : Type} (key : α → ℚ) (x : α) : List α → List α
  | [] => [x]
  | y :: ys => if key y ≤ key x then y :: insertByKey key x ys else x :: y :: ys

/-- Stable sort ascending by `key` (insertion sort), modelling the
JavaScript `sort((a, b) => key a - key b)` call of `findPathWaypoints`. -/
def sortByKey {α : Type} (key : α → ℚ) (l : List α) : List α :=
  l.foldl (fun acc x => insertByKey key x acc) []

/-- `findPathWaypoints` of `page.tsx`: no intermediates below 5 km of
direct distance; otherwise keep candidates whose detour is below
`1.3 ×` the direct distance, sort ascending by distance from the source
and take at most `maxIntermediatePoints = 2`. -/
def findPathWaypoints (dist : ℚ → ℚ → ℚ → ℚ → ℚ) (source destination : Waypoint)
    (availableWaypoints : List Waypoint) : List Waypoint :=
  let directDistance := dist source.lat source.lng destination.lat destination.lng
  if directDistance < 5 then
    []
  else
    let candidateWaypoints := availableWaypoints.filter (fun w =>
      decide (dist source.lat source.lng w.lat w.lng
        + dist w.lat w.lng destination.lat destination.lng < directDistance * 1.3))
    (sortByKey (fun w => dist source.lat source.lng w.lat w.lng) candidateWaypoints).take 2

/-- The four linearly interpolated points that `calculateOptimalPath`
inserts between two consecutive anchors (`steps = 5`, `j = 1 … 4`,
`ratio = j / steps`, plain `{lat, lng}` objects). -/
def interpBetween (current next : PathPoint) : List PathPoint :=
  (List.range 4).map (fun j =>
    { lat := current.lat + (next.lat - current.lat) * (((j : ℚ) + 1) / 5),
      lng := current.lng + (next.lng - current.lng) * (((j : ℚ) + 1) / 5) })

/-- The smoothing loop of `calculateOptimalPath`: for every consecutive
anchor pair emit the first anchor followed by its four interpolation
points (the final anchor is appended separately by the caller). -/
def smoothSegs : List PathPoint → List PathPoint
  | c :: n :: rest => (c :: interpBetween c n) ++ smoothSegs (n :: rest)
  | _ => []

/-- A `Waypoint` rendered as the anchor `PathPoint` that
`calculateOptimalPath` pushes (`isWaypoint: true` with its id). -/
def anchorPoint (w : Waypoint) : PathPoint :=
  { lat := w.lat, lng := w.lng, isWaypoint := true, waypointId := some w.id }

/-- `calculateOptimalPath` of `page.tsx`: anchors are the source, the
selected intermediates (candidates exclude the source and destination
ids), and the destination; between consecutive anchors four interpolated
points are inserted, and the final anchor is appended once at the end. -/
def calculateOptimalPath (dist : ℚ → ℚ → ℚ → ℚ → ℚ) (waypoints : List Waypoint)
    (sourceWaypoint destinationWaypoint : Waypoint) : List PathPoint :=
  let nearbyWaypoints := waypoints.filter (fun w =>
    decide (w.id ≠ sourceWaypoint.id ∧ w.id ≠ destinationWaypoint.id))
  let pathWaypoints := findPathWaypoints dist sourceWaypoint destinationWaypoint nearbyWaypoints
  let intermediatePoints :=
    anchorPoint sourceWaypoint ::
      (pathWaypoints.map anchorPoint ++ [anchorPoint destinationWaypoint])
  smoothSegs intermediatePoints ++ [intermediatePoints.getLastD defaultPathPoint]

/-- Result record of `getPositionAlongPath`:
`{lat, lng, heading?}` (the `progress ≤ 0`, `progress ≥ 1` and fallback
returns carry no heading). -/
structure PosResult where
  lat : ℚ
  lng : ℚ
  heading : Option ℚ := none
deriving DecidableEq, Repr

/-- The segment-walking loop of `getPositionAlongPath`, with the running
target decremented instead of an accumulator: at each segment of length
`d`, stop when `accumulated + d ≥ target`, i.e. when the remaining target
`t ≤ d`, and interpolate by the in-segment ratio `t / d`. -/
def walkSegments (dist bear : ℚ → ℚ → ℚ → ℚ → ℚ) :
    List PathPoint → ℚ → Option PosResult
  | p :: q :: rest, t =>
    let d := dist p.lat p.lng q.lat q.lng
    if t ≤ d then
      some { lat := p.lat + (q.lat - p.lat) * (t / d),
             lng := p.lng + (q.lng - p.lng) * (t / d),
             heading := some (bear p.lat p.lng q.lat q.lng) }
    else
      walkSegments dist bear (q :: rest) (t - d)
  | _, _ => none

/-- `getPositionAlongPath` of `page.tsx`. -/
def getPositionAlongPath (dist bear : ℚ → ℚ → ℚ → ℚ → ℚ)
    (path : List PathPoint) (progress : ℚ) : PosResult :=
  if progress ≤ 0 then
    { lat := (path.headD defaultPathPoint).lat, lng := (path.headD defaultPathPoint).lng }
  else if 1 ≤ progress then
    { lat := (path.getLastD defaultPathPoint).lat, lng := (path.getLastD defaultPathPoint).lng }
  else
    let totalDistance := (segDistances dist path).sum
    match walkSegments dist bear path (totalDistance * progress) with
    | some r => r
    | none =>
      { lat := (path.getLastD defaultPathPoint).lat, lng := (path.getLastD defaultPathPoint).lng }

/-- `SimulationData` of `page.tsx`.  Optional TypeScript fields are
`Option`; `timestamp` holds the instant denoted by the ISO string. -/
structure SimData where
  avgSpeed : ℚ
  latitude : ℚ
  longitude : ℚ
  heading : ℚ
  status : St
  timestamp : ℤ
  fuelLevel : ℚ
  engineStatus : Bool
  distanceTravelled : ℚ
  startTime : Option ℤ := none
  currentLat : Option ℚ := none
  currentLng : Option ℚ := none
  progress : Option ℚ := none
  pathIndex : Option ℕ := none
  delayStartTime : Option ℤ := none
  isDelayed : Bool := false
deriving DecidableEq, Repr

/-- `Vehicle` of `page.tsx`.  `status` is `Option` because the viewer's
delta merge writes `positionUpdate.status` unchecked, which may be
`undefined` at runtime; `vtype` models the `type` field. -/
structure Vehicle where
  id : ℤ
  licensePlate : String
  model : String
  brand : String
  vtype : String
  currentWaypoint : Option ℤ := none
  targetWaypoint : Option ℤ := none
  speed : ℚ
  initialDelay : ℤ
  status : Option St := none
  simulationData : Option SimData := none
  plannedPath : Option (List PathPoint) := none
deriving DecidableEq, Repr

/-- Discrete side effects of a producer tick that the claims mention:
the delay-ended notification (sent only when the socket is connected)
and the journey-completion notification / toast. -/
inductive SimEvent where
  | vehicleStartedMoving (id : ℤ) : SimEvent
  | notifJourneyComplete (id : ℤ) : SimEvent
  | toastJourneyComplete (id : ℤ) : SimEvent
deriving DecidableEq, Repr

/-- Per-vehicle initialisation of `startSimulation` in `page.tsx`
(`initializedVehicles`): vehicles without a planned path are returned
unchanged; with a delay the vehicle is parked (`status: "idle"`,
`isDelayed`, `delayStartTime = now`, `startTime` pre-set to
`now + initialDelay*1000`), otherwise it starts moving at `now`.
`rand01` models the `Math.random()` draw of the fuel level. -/
def initVehicle (now : ℤ) (rand01 : ℚ) (vehicle : Vehicle) : Vehicle :=
  match vehicle.plannedPath with
  | none => vehicle
  | some [] => vehicle
  | some (p0 :: rest) =>
    let hasDelay := 0 < vehicle.initialDelay
    { vehicle with
      status := some (if hasDelay then St.idle else St.moving),
      simulationData := some
        { avgSpeed := vehicle.speed,
          latitude := p0.lat,
          longitude := p0.lng,
          heading := 0,
          status := if hasDelay then St.delayedPlain else St.moving,
          timestamp := now,
          fuelLevel := rand01 * 50 + 50,
          engineStatus := true,
          distanceTravelled := 0,
          startTime := some (if hasDelay then now + vehicle.initialDelay * 1000 else now),
          currentLat := some p0.lat,
          currentLng := some p0.lng,
          progress := some 0,
          pathIndex := some 0,
          delayStartTime := if hasDelay then some now else none,
          isDelayed := hasDelay },
      plannedPath := some (p0 :: rest) }

/-- `startSimulation` maps `initVehicle` over the roster. -/
def initVehicles (now : ℤ) (rand01 : ℚ) (vehicles : List Vehicle) : List Vehicle :=
  vehicles.map (initVehicle now rand01)

/-- The moving-vehicle part of the tick body (entered when the delayed
branch was not taken): guard `vehicle.status === "moving" &&
vehicle.simulationData.startTime`, then the progress computation, the
completion snap, or the interpolated position update of `page.tsx`. -/
def movingTick (dist bear : ℚ → ℚ → ℚ → ℚ → ℚ) (playbackSpeed : ℚ)
    (wsConnected : Bool) (now : ℤ) (vehicle : Vehicle) (sd : SimData)
    (path : List PathPoint) : Vehicle × List SimEvent :=
  match truthyZ sd.startTime, vehicle.status with
  | some startTime, some St.moving =>
    let elapsedTime : ℚ := ((now - startTime : ℤ) : ℚ)
    let totalDistance := calculatePathDistance dist path
    let journeyDuration := totalDistance / (vehicle.speed / 3600) * 1000 / playbackSpeed
    let overallProgress := min (elapsedTime / journeyDuration) 1
    if 1 ≤ overallProgress then
      let finalPoint := path.getLastD defaultPathPoint
      ({ vehicle with
          currentWaypoint := vehicle.targetWaypoint,
          status := some St.stopped,
          simulationData := some
            { sd with
              avgSpeed := vehicle.speed,
              latitude := finalPoint.lat,
              longitude := finalPoint.lng,
              status := St.completed,
              timestamp := now,
              distanceTravelled := totalDistance,
              currentLat := some finalPoint.lat,
              currentLng := some finalPoint.lng,
              progress := some 1 } },
        (if wsConnected then [SimEvent.notifJourneyComplete vehicle.id] else [])
          ++ [SimEvent.toastJourneyComplete vehicle.id])
    else
      let pathPosition := getPositionAlongPath dist bear path overallProgress
      let heading := pathPosition.heading.getD 0
      ({ vehicle with
          simulationData := some
            { sd with
              currentLat := some pathPosition.lat,
              currentLng := some pathPosition.lng,
              heading := heading,
              progress := some overallProgress,
              distanceTravelled := totalDistance * overallProgress } },
        [])
  | _, _ => (vehicle, [])

/-- One producer tick for one vehicle (`simulationInterval` body of
`startSimulation` / `restartSimulationWithNewSpeed`, both identical):
skip vehicles without kinematics or path, handle the delay countdown
(`isDelayed && delayStartTime`, both truthy), then the moving branch. -/
def simulateVehicleTick (dist bear : ℚ → ℚ → ℚ → ℚ → ℚ) (playbackSpeed : ℚ)
    (wsConnected : Bool) (now : ℤ) (vehicle : Vehicle) : Vehicle × List SimEvent :=
  match vehicle.simulationData, vehicle.plannedPath with
  | some sd, some path =>
    match truthyZ sd.delayStartTime, sd.isDelayed with
    | some delayStartTime, true =>
      let delayElapsed := now - delayStartTime
      let delayDuration := vehicle.initialDelay * 1000
      if delayElapsed < delayDuration then
        ({ vehicle with
            status := some St.idle,
            simulationData := some
              { sd with status := St.delayedRem ⌈(((delayDuration - delayElapsed) : ℤ) : ℚ) / 1000⌉ } },
          [])
      else
        ({ vehicle with
            status := some St.moving,
            simulationData := some
              { sd with isDelayed := false, status := St.moving, startTime := some now } },
          if wsConnected then [SimEvent.vehicleStartedMoving vehicle.id] else [])
    | _, _ => movingTick dist bear playbackSpeed wsConnected now vehicle sd path
  | _, _ => (vehicle, [])

/-- One entry of a `LIVE_POSITION_UPDATE` payload
(`positionUpdates` built by the producer tick; received untyped, so every
field may be absent). -/
structure PositionDelta where
  id : ℤ
  licensePlate : Option String := none
  currentLat : Option ℚ := none
  currentLng : Option ℚ := none
  heading : Option ℚ := none
  progress : Option ℚ := none
  status : Option St := none
  distanceTravelled : Option ℚ := none
  timestamp : Option ℤ := none
  speed : Option ℚ := none
deriving DecidableEq, Repr

/-- The merge of one delta entry into a matching local vehicle
(`LIVE_POSITION_UPDATE` handler of `handleSimulationUpdate`, first
branch): motion fields come from the delta through JS `||` fallback
chains, structural fields from the existing copy.  `la`, `ln` are the
(truthy) delta coordinates; `now` models `Date.now()`. -/
def mergeVehicle (ex : Vehicle) (pu : PositionDelta) (la ln : ℚ) (now : ℤ) : Vehicle :=
  { ex with
    status := pu.status,
    simulationData := some
      { currentLat := some la,
        currentLng := some ln,
        heading := (truthyQ pu.heading).getD (match ex.simulationData with
          | some sd => sd.heading
          | none => 0),
        progress := some ((truthyQ pu.progress).getD
          ((truthyQ (ex.simulationData.bind (fun sd => sd.progress))).getD 0)),
        distanceTravelled := (truthyQ pu.distanceTravelled).getD
          (match ex.simulationData with
            | some sd => sd.distanceTravelled
            | none => 0),
        timestamp := (truthyZ pu.timestamp).getD now,
        status := (pu.status).getD (match ex.simulationData with
          | some sd => sd.status
          | none => St.moving),
        avgSpeed := (truthyQ (ex.simulationData.map (fun sd => sd.avgSpeed))).getD
          ((truthyQ pu.speed).getD 50),
        latitude := la,
        longitude := ln,
        fuelLevel := (truthyQ (ex.simulationData.map (fun sd => sd.fuelLevel))).getD 75,
        engineStatus := (ex.simulationData.elim false (fun sd => sd.engineStatus)) || true,
        startTime := ex.simulationData.bind (fun sd => sd.startTime),
        pathIndex := ex.simulationData.bind (fun sd => sd.pathIndex),
        delayStartTime := ex.simulationData.bind (fun sd => sd.delayStartTime),
        isDelayed := ex.simulationData.elim false (fun sd => sd.isDelayed) },
    plannedPath := ex.plannedPath,
    currentWaypoint := ex.currentWaypoint,
    targetWaypoint := ex.targetWaypoint,
    licensePlate := jsOrS pu.licensePlate ex.licensePlate }

/-- The placeholder vehicle synthesised for an unknown id with a usable
position (`LIVE_POSITION_UPDATE` handler, second branch). -/
def placeholderVehicle (pu : PositionDelta) (la ln : ℚ) (now : ℤ) : Vehicle :=
  { id := pu.id,
    licensePlate := jsOrS pu.licensePlate ("Vehicle-" ++ toString pu.id),
    model := "Unknown Model",
    brand := "Unknown Brand",
    vtype := "Unknown Type",
    speed := 50,
    initialDelay := 0,
    status := some ((pu.status).getD St.moving),
    currentWaypoint := none,
    targetWaypoint := none,
    plannedPath := some [],
    simulationData := some
      { avgSpeed := 50,
        latitude := la,
        longitude := ln,
        currentLat := some la,
        currentLng := some ln,
        heading := (truthyQ pu.heading).getD 0,
        status := (pu.status).getD St.moving,
        timestamp := (truthyZ pu.timestamp).getD now,
        fuelLevel := 75,
        engineStatus := true,
        distanceTravelled := (truthyQ pu.distanceTravelled).getD 0,
        progress := some ((truthyQ pu.progress).getD 0) } }

/-- One delta entry processed against the local roster: merge when the id
matches and both coordinates are truthy, synthesise a placeholder when
only the coordinates are truthy, otherwise return the lookup result
(`undefined`, i.e. `none`, for an unknown id). -/
def processPositionUpdate (lookup : ℤ → Option Vehicle) (now : ℤ)
    (pu : PositionDelta) : Option Vehicle :=
  match truthyQ pu.currentLat, truthyQ pu.currentLng with
  | some la, some ln =>
    match lookup pu.id with
    | some ex => some (mergeVehicle ex pu la ln now)
    | none => some (placeholderVehicle pu la ln now)
  | _, _ => lookup pu.id

/-- Lookup in the `Map` built from the previous roster (`Map.set` keyed by
id, so the last vehicle with a given id wins). -/
def rosterLookup (prev : List Vehicle) (i : ℤ) : Option Vehicle :=
  prev.foldl (fun acc v => if v.id = i then some v else acc) none

/-- The whole `LIVE_POSITION_UPDATE` roster update of
`handleSimulationUpdate`: map every delta entry through
`processPositionUpdate`, then keep only defined vehicles with a truthy id
(`filter((v) => v && v.id)`). -/
def handleLivePositionUpdate (prev : List Vehicle) (deltas : List PositionDelta)
    (now : ℤ) : List Vehicle :=
  ((deltas.map (processPositionUpdate (rosterLookup prev) now)).filterMap id).filter
    (fun v => decide (v.id ≠ 0))

/-- Producer-side `stopSimulation` roster update: every vehicle gets
`status: "idle"`; nothing else of the vehicle record is touched. -/
def stopSimulationRoster (vehicles : List Vehicle) : List Vehicle :=
  vehicles.map (fun v => { v with status := some St.idle })

/-- Viewer-side `SIMULATION_STOPPED` handler roster update: identical map
to `status: "idle"`. -/
def handleSimulationStoppedRoster (prev : List Vehicle) : List Vehicle :=
  prev.map (fun v => { v with status := some St.idle })

/-- Connection-level state of the `useWebSocket` hook: the reconnection
counter, the connected flag and the surfaced error string. -/
structure WsState where
  reconnectAttempts : ℕ
  isConnected : Bool
  connectionError : Option String
deriving DecidableEq, Repr

/-- The events the hook reacts to.  `onConnectSuccess` models `onConnect`;
the four failure callbacks and `forceReconnect` are as in the source. -/
inductive WsEvent where
  | onDisconnect : WsEvent
  | onStompError (msg : String) : WsEvent
  | onWebSocketError : WsEvent
  | onWebSocketClose (code : ℤ) : WsEvent
  | onConnectSuccess : WsEvent
  | forceReconnect : WsEvent
deriving DecidableEq, Repr

def maxReconnectAttempts : ℕ := 10

/-- `connect()` of `useWebSocket`: exponential backoff
`min(1000 * 2^attempts, 30000)`. -/
def backoffDelay (attempts : ℕ) : ℤ :=
  min (1000 * 2 ^ attempts) 30000

/-- The delay of the connection attempt that `connect()` schedules for the
current counter value: immediate (`0`) on a fresh connect, backoff
otherwise, and nothing when the hook is disabled.  The counter value seen
by `connect` is the post-increment one (the `useEffect` keyed on `connect`
re-runs it after the state update commits). -/
def connectSched (enabled : Bool) (s : WsState) : Option ℤ :=
  if enabled then some (if 0 < s.reconnectAttempts then backoffDelay s.reconnectAttempts else 0)
  else none

/-- One transition of the `useWebSocket` connection state machine.  The
second component is the delay of a newly scheduled connection attempt
(`none` when the transition schedules no attempt). -/
def wsStep (enabled : Bool) (s : WsState) : WsEvent → WsState × Option ℤ
  | WsEvent.onDisconnect =>
    if enabled ∧ s.reconnectAttempts < maxReconnectAttempts then
      let s1 := { s with isConnected := false, reconnectAttempts := s.reconnectAttempts + 1 }
      (s1, connectSched enabled s1)
    else if maxReconnectAttempts ≤ s.reconnectAttempts then
      ({ s with
          isConnected := false,
          connectionError := some ("Max reconnection attempts reached") }, none)
    else
      ({ s with isConnected := false }, none)
  | WsEvent.onStompError msg =>
    let s0 := { s with isConnected := false, connectionError := some msg }
    if enabled ∧ s.reconnectAttempts < maxReconnectAttempts then
      let s1 := { s0 with reconnectAttempts := s.reconnectAttempts + 1 }
      (s1, connectSched enabled s1)
    else
      (s0, none)
  | WsEvent.onWebSocketError =>
    let s0 := { s with
      isConnected := false,
      connectionError := some ("WebSocket connection failed") }
    if enabled ∧ s.reconnectAttempts < maxReconnectAttempts then
      let s1 := { s0 with reconnectAttempts := s.reconnectAttempts + 1 }
      (s1, connectSched enabled s1)
    else
      (s0, none)
  | WsEvent.onWebSocketClose code =>
    if code ≠ 1000 ∧ enabled ∧ s.reconnectAttempts < maxReconnectAttempts then
      let s1 := { s with isConnected := false, reconnectAttempts := s.reconnectAttempts + 1 }
      (s1, connectSched enabled s1)
    else
      ({ s with isConnected := false }, none)
  | WsEvent.onConnectSuccess =>
    ({ s with isConnected := true, connectionError := none, reconnectAttempts := 0 }, none)
  | WsEvent.forceReconnect =>
    let s1 := { s with reconnectAttempts := 0, connectionError := none }
    (s1, connectSched enabled s1)

lemma insertByKey_perm {α : Type} (key : α → ℚ) (x : α) :
    ∀ l : List α, List.Perm (insertByKey key x l) (x :: l) := by
  intro l
  induction l with
  | nil => simp [insertByKey]
  | cons y ys ih =>
    by_cases h : key y ≤ key x
    · simpa [insertByKey, h] using ((ih.cons y).trans (List.Perm.swap x y ys))
    · simp [insertByKey, h]

lemma insertByKey_mem {α : Type} (key : α → ℚ) (x z : α) (l : List α) :
    z ∈ insertByKey key x l ↔ z = x ∨ z ∈ l := by
  rw [(insertByKey_perm key x l).mem_iff]
  simp

lemma insertByKey_sorted {α : Type} (key : α → ℚ) (x : α) :
    ∀ l : List α, l.Pairwise (fun a b => key a ≤ key b) →
      (insertByKey key x l).Pairwise (fun a b => key a ≤ key b) := by
  intro l
  induction l with
  | nil => simp [insertByKey]
  | cons y ys ih =>
    intro h
    rw [List.pairwise_cons] at h
    by_cases hc : key y ≤ key x
    · rw [insertByKey, if_pos hc, List.pairwise_cons]
      refine ⟨?_, ih h.2⟩
      intro z hz
      rcases (insertByKey_mem key x z ys).1 hz with hz | hz
      · exact hz ▸ hc
      · exact h.1 z hz
    · rw [insertByKey, if_neg hc, List.pairwise_cons]
      refine ⟨?_, List.pairwise_cons.2 h⟩
      intro z hz
      rcases List.mem_cons.1 hz with hz | hz
      · exact hz ▸ le_of_lt (lt_of_not_le hc)
      · exact le_trans (le_of_lt (lt_of_not_le hc)) (h.1 z hz)

lemma sortByKey_aux_perm {α : Type} (key : α → ℚ) :
    ∀ l acc : List α,
      List.Perm (l.foldl (fun acc x => insertByKey key x acc) acc) (acc ++ l) := by
  intro l
  induction l with
  | nil => intro acc; simp
  | cons x xs ih =>
    intro acc
    have h1 := ih (insertByKey key x acc)
    have h2 : List.Perm (insertByKey key x acc ++ xs) ((x :: acc) ++ xs) :=
      (insertByKey_perm key x acc).append_right xs
    have h3 : List.Perm ((x :: acc) ++ xs) (acc ++ x :: xs) := List.perm_middle.symm
    exact h1.trans (h2.trans h3)

lemma sortByKey_perm {α : Type} (key : α → ℚ) (l : List α) :
    List.Perm (sortByKey key l) l := by
  simpa using sortByKey_aux_perm key l []

lemma sortByKey_aux_sorted {α : Type} (key : α → ℚ) :
    ∀ l acc : List α, acc.Pairwise (fun a b => key a ≤ key b) →
      (l.foldl (fun acc x => insertByKey key x acc) acc).Pairwise
        (fun a b => key a ≤ key b) := by
  intro l
  induction l with
  | nil => intro acc h; simpa using h
  | cons x xs ih =>
    intro acc h
    exact ih (insertByKey key x acc) (insertByKey_sorted key x acc h)

lemma sortByKey_sorted {α : Type} (key : α → ℚ) (l : List α) :
    (sortByKey key l).Pairwise (fun a b => key a ≤ key b) := by
  exact sortByKey_aux_sorted key l [] (by simp)

/-- Claim C7: for every source, destination and candidate pool, if the
direct distance is below 5 km the route composer selects no intermediate
waypoints; otherwise it keeps exactly the candidates (source and
destination ids excluded) whose detour `dist(s,w) + dist(w,d)` is below
`1.3 ×` the direct distance, sorts them ascending by distance from the
source, and selects at most the first two. -/
theorem claim_C7_waypoint_selection (dist : ℚ → ℚ → ℚ → ℚ → ℚ)
    (src dst : Waypoint) (pool : List Waypoint) :
    (dist src.lat src.lng dst.lat dst.lng < 5 →
      findPathWaypoints dist src dst
        (pool.filter (fun w => decide (w.id ≠ src.id ∧ w.id ≠ dst.id))) = []) ∧
    (¬ dist src.lat src.lng dst.lat dst.lng < 5 →
      findPathWaypoints dist src dst
          (pool.filter (fun w => decide (w.id ≠ src.id ∧ w.id ≠ dst.id))) =
        (sortByKey (fun w => dist src.lat src.lng w.lat w.lng)
          ((pool.filter (fun w => decide (w.id ≠ src.id ∧ w.id ≠ dst.id))).filter
            (fun w => decide (dist src.lat src.lng w.lat w.lng
              + dist w.lat w.lng dst.lat dst.lng
                < dist src.lat src.lng dst.lat dst.lng * 1.3)))).take 2 ∧
      (findPathWaypoints dist src dst
        (pool.filter (fun w => decide (w.id ≠ src.id ∧ w.id ≠ dst.id)))).length ≤ 2 ∧
      (∀ w ∈ findPathWaypoints dist src dst
          (pool.filter (fun w => decide (w.id ≠ src.id ∧ w.id ≠ dst.id))),
        w ∈ pool ∧ w.id ≠ src.id ∧ w.id ≠ dst.id ∧
          dist src.lat src.lng w.lat w.lng + dist w.lat w.lng dst.lat dst.lng
            < dist src.lat src.lng dst.lat dst.lng * 1.3) ∧
      (findPathWaypoints dist src dst
          (pool.filter (fun w => decide (w.id ≠ src.id ∧ w.id ≠ dst.id)))).Pairwise
        (fun a b => dist src.lat src.lng a.lat a.lng ≤ dist src.lat src.lng b.lat b.lng)) := by
  constructor
  · intro h
    rw [findPathWaypoints, if_pos h]
  · intro h
    simp only [findPathWaypoints, if_neg h]
    refine ⟨trivial, ?_, ?_, ?_⟩
    · rw [List.length_take]
      exact min_le_left _ _
    · intro w hw
      have hw1 : w ∈ sortByKey (fun w => dist src.lat src.lng w.lat w.lng) _ :=
        List.mem_of_mem_take hw
      have hw2 := (sortByKey_perm _ _).mem_iff.1 hw1
      rw [List.mem_filter] at hw2
      rcases hw2 with ⟨hw3, hcrit⟩
      rw [List.mem_filter] at hw3
      rcases hw3 with ⟨hpool, hids⟩
      simp only [decide_eq_true_eq] at hcrit hids
      exact ⟨hpool, hids.1, hids.2, hcrit⟩
    · exact (sortByKey_sorted _ _).sublist (List.take_sublist _ _)

/-- Taxicab distance on coordinates: a concrete computable instance of the
abstract `dist` parameter, used by witnesses. -/
def taxiDist : ℚ → ℚ → ℚ → ℚ → ℚ :=
  fun lat1 lng1 lat2 lng2 => |lat2 - lat1| + |lng2 - lng1|

def wpA : Waypoint := { id := 1, name := "A", lat := 0, lng := 0 }

def wpB : Waypoint := { id := 2, name := "B", lat := 1, lng := 0 }

def wpC : Waypoint := { id := 4, name := "C", lat := 10, lng := 0 }

def wpW : Waypoint := { id := 3, name := "W", lat := 2, lng := 0 }

/-- Witness for C7: at taxicab distance, a 1 km pair selects no
intermediates, and a 10 km pair with one candidate selects at most two. -/
theorem claim_C7_waypoint_selection_witness :
    findPathWaypoints taxiDist wpA wpB
        (([] : List Waypoint).filter (fun w => decide (w.id ≠ wpA.id ∧ w.id ≠ wpB.id))) = [] ∧
    (findPathWaypoints taxiDist wpA wpC
        ([wpW].filter (fun w => decide (w.id ≠ wpA.id ∧ w.id ≠ wpC.id)))).length ≤ 2 :=
  ⟨(claim_C7_waypoint_selection taxiDist wpA wpB []).1
      (by norm_num [taxiDist, wpA, wpB]),
    ((claim_C7_waypoint_selection taxiDist wpA wpC [wpW]).2
      (by norm_num [taxiDist, wpA, wpC])).2.1⟩

lemma rosterLookup_aux (i : ℤ) (v : Vehicle) :
    ∀ (l : List Vehicle) (acc : Option Vehicle),
      (∀ w, acc = some w → w.id = i) →
      l.foldl (fun acc v => if v.id = i then some v else acc) acc = some v →
      v.id = i := by
  intro l
  induction l with
  | nil => intro acc hacc h; exact hacc v h
  | cons x xs ih =>
    intro acc hacc h
    refine ih _ ?_ h
    intro w hw
    simp only [] at hw
    by_cases hx : x.id = i
    · rw [if_pos hx] at hw
      cases hw
      exact hx
    · rw [if_neg hx] at hw
      exact hacc w hw

/-- A successful roster lookup returns a vehicle carrying the looked-up id. -/
lemma rosterLookup_id (prev : List Vehicle) (i : ℤ) (v : Vehicle)
    (h : rosterLookup prev i = some v) : v.id = i :=
  rosterLookup_aux i v prev none (by intro w hw; cases hw) h

/-- Every vehicle produced by one delta entry carries that entry's id. -/
lemma processPositionUpdate_id (prev : List Vehicle) (now : ℤ)
    (pu : PositionDelta) (w : Vehicle)
    (h : processPositionUpdate (rosterLookup prev) now pu = some w) : w.id = pu.id := by
  unfold processPositionUpdate at h
  cases hla : truthyQ pu.currentLat with
  | none =>
    rw [hla] at h
    exact rosterLookup_id prev pu.id w h
  | some la =>
    cases hln : truthyQ pu.currentLng with
    | none =>
      rw [hla, hln] at h
      exact rosterLookup_id prev pu.id w h
    | some ln =>
      rw [hla, hln] at h
      cases hlk : rosterLookup prev pu.id with
      | none =>
        rw [hlk] at h
        cases h
        simp [placeholderVehicle]
      | some ex =>
        rw [hlk] at h
        cases h
        have := rosterLookup_id prev pu.id ex hlk
        simpa [mergeVehicle] using this

/-- Claim C9: applying a `LIVE_POSITION_UPDATE` replaces the roster with
exactly the vehicles derived from the delta's entries: every vehicle of
the new roster carries the id of some delta entry, so a locally-known
vehicle whose id does not appear in the delta is removed rather than
carried over. -/
theorem claim_C9_roster_replaced_by_delta (prev : List Vehicle)
    (deltas : List PositionDelta) (now : ℤ) :
    (∀ w ∈ handleLivePositionUpdate prev deltas now, ∃ pu ∈ deltas, w.id = pu.id) ∧
    (∀ v ∈ prev, (∀ pu ∈ deltas, pu.id ≠ v.id) →
      ∀ w ∈ handleLivePositionUpdate prev deltas now, w.id ≠ v.id) := by
  have main : ∀ w ∈ handleLivePositionUpdate prev deltas now, ∃ pu ∈ deltas, w.id = pu.id := by
    intro w hw
    unfold handleLivePositionUpdate at hw
    have hw1 := (List.mem_filter.1 hw).1
    rcases List.mem_filterMap.1 hw1 with ⟨o, ho, hoe⟩
    rcases List.mem_map.1 ho with ⟨pu, hpu, hgo⟩
    have hg : processPositionUpdate (rosterLookup prev) now pu = some w := by
      rw [hgo]; exact hoe
    exact ⟨pu, hpu, processPositionUpdate_id prev now pu w hg⟩
  refine ⟨main, ?_⟩
  intro v _ hnone w hw heq
  rcases main w hw with ⟨pu, hpu, hid⟩
  exact hnone pu hpu (by rw [← hid, heq])

/-- Witness for C9: a delta for unknown id 8 against a roster holding only
id 7 yields a roster whose single vehicle carries id 8. -/
def vhSeven : Vehicle :=
  { id := 7, licensePlate := "LP7", model := "M7", brand := "B7", vtype := "T7",
    speed := 50, initialDelay := 0 }

def puEight : PositionDelta :=
  { id := 8, currentLat := some 1, currentLng := some 1 }

theorem claim_C9_roster_replaced_by_delta_witness :
    (placeholderVehicle puEight 1 1 5).id = puEight.id := by
  rcases (claim_C9_roster_replaced_by_delta [vhSeven] [puEight] 5).1
      (placeholderVehicle puEight 1 1 5)
      (by simp [handleLivePositionUpdate, processPositionUpdate, truthyQ,
        rosterLookup, vhSeven, puEight, placeholderVehicle]) with ⟨pu, hpu, hid⟩
  rw [List.mem_singleton] at hpu
  rw [hpu] at hid
  exact hid

/-- Claim C10: the viewer's delta merge tests numeric fields by JS
truthiness, so `0` means absent: a delta coordinate equal to `0` makes the
entry carry no usable position (a matching local vehicle is returned
unchanged, an unknown one stays `undefined` and is dropped), and a delta
`progress` or `heading` equal to `0` leaves the previous kinematic value
in place instead of overwriting it with `0`. -/
theorem claim_C10_zero_treated_as_absent (prev : List Vehicle) (now : ℤ)
    (pu : PositionDelta) (ex : Vehicle) (sd : SimData) (la ln p : ℚ) :
    ((pu.currentLat = some 0 ∨ pu.currentLng = some 0) →
      processPositionUpdate (rosterLookup prev) now pu = rosterLookup prev pu.id) ∧
    (pu.currentLat = some la → la ≠ 0 → pu.currentLng = some ln → ln ≠ 0 →
      rosterLookup prev pu.id = some ex → ex.simulationData = some sd →
      processPositionUpdate (rosterLookup prev) now pu
          = some (mergeVehicle ex pu la ln now) ∧
      (pu.progress = some 0 → sd.progress = some p →
        (mergeVehicle ex pu la ln now).simulationData.bind (fun s => s.progress)
          = some p) ∧
      (pu.heading = some 0 →
        (mergeVehicle ex pu la ln now).simulationData.map (fun s => s.heading)
          = some sd.heading)) := by
  constructor
  · rintro (h | h)
    · unfold processPositionUpdate
      rw [h]
      simp [truthyQ]
    · unfold processPositionUpdate
      rw [h]
      cases truthyQ pu.currentLat with
      | none => simp [truthyQ]
      | some la2 => simp [truthyQ]
  · intro hla hla0 hln hln0 hex hsd
    have htla : truthyQ pu.currentLat = some la := by rw [hla]; simp [truthyQ, hla0]
    have htln : truthyQ pu.currentLng = some ln := by rw [hln]; simp [truthyQ, hln0]
    refine ⟨?_, ?_, ?_⟩
    · unfold processPositionUpdate
      rw [htla, htln, hex]
    · intro hp hps
      by_cases hp0 : p = 0
      · simp [mergeVehicle, hp, hsd, hps, truthyQ, hp0]
      · simp [mergeVehicle, hp, hsd, hps, truthyQ, hp0]
    · intro hh
      simp [mergeVehicle, hh, hsd, truthyQ]

def exSimC10 : SimData :=
  { avgSpeed := 40, latitude := 3, longitude := 4, heading := 90,
    status := St.moving, timestamp := 100, fuelLevel := 60,
    engineStatus := true, distanceTravelled := 2, progress := some (1/4),
    currentLat := some 3, currentLng := some 4 }

def exVehicleC10 : Vehicle :=
  { id := 9, licensePlate := "LP9", model := "M9", brand := "B9", vtype := "T9",
    speed := 40, initialDelay := 0, status := some St.moving,
    simulationData := some exSimC10 }

def puZeroLat : PositionDelta :=
  { id := 9, currentLat := some 0, currentLng := some 2 }

def puZeroProg : PositionDelta :=
  { id := 9, currentLat := some 3, currentLng := some 4,
    progress := some 0, heading := some 0 }

/-- Witness for C10: a zero-latitude delta returns the matching local
vehicle unchanged, and a zero-progress zero-heading delta keeps the
previous progress `1/4` and heading `90`. -/
theorem claim_C10_zero_treated_as_absent_witness :
    processPositionUpdate (rosterLookup [exVehicleC10]) 200 puZeroLat
        = rosterLookup [exVehicleC10] puZeroLat.id ∧
    ((mergeVehicle exVehicleC10 puZeroProg 3 4 200).simulationData.bind
        (fun s => s.progress) = some (1/4)) ∧
    ((mergeVehicle exVehicleC10 puZeroProg 3 4 200).simulationData.map
        (fun s => s.heading) = some exSimC10.heading) := by
  have hlk : rosterLookup [exVehicleC10] puZeroProg.id = some exVehicleC10 := by
    simp [rosterLookup, exVehicleC10, puZeroProg]
  have h2 := (claim_C10_zero_treated_as_absent [exVehicleC10] 200 puZeroProg
      exVehicleC10 exSimC10 3 4 (1/4)).2
    (by simp [puZeroProg]) (by norm_num) (by simp [puZeroProg]) (by norm_num)
    hlk (by simp [exVehicleC10])
  refine ⟨?_, ?_, ?_⟩
  · exact (claim_C10_zero_treated_as_absent [exVehicleC10] 200 puZeroLat
      exVehicleC10 exSimC10 0 0 0).1 (Or.inl (by simp [puZeroLat]))
  · exact h2.2.1 (by simp [puZeroProg]) (by simp [exSimC10])
  · exact h2.2.2 (by simp [puZeroProg])

/-- Claim C3: merging a sparse position delta overwrites only the motion
fields of a matching local vehicle (position, heading, progress,
distance travelled, status, timestamp — each taken from the delta when
the delta carries a usable value) while preserving every structural field
from the existing copy; an unknown id with a usable position synthesises
a minimal placeholder (unknown model/brand/type, empty path); an unknown
id without a usable position is dropped. -/
theorem claim_C3_sparse_delta_merge (prev : List Vehicle) (now : ℤ)
    (pu : PositionDelta) (ex : Vehicle) (la ln : ℚ) :
    (pu.currentLat = some la → la ≠ 0 → pu.currentLng = some ln → ln ≠ 0 →
      rosterLookup prev pu.id = some ex →
      processPositionUpdate (rosterLookup prev) now pu
          = some (mergeVehicle ex pu la ln now) ∧
      (mergeVehicle ex pu la ln now).plannedPath = ex.plannedPath ∧
      (mergeVehicle ex pu la ln now).currentWaypoint = ex.currentWaypoint ∧
      (mergeVehicle ex pu la ln now).targetWaypoint = ex.targetWaypoint ∧
      (mergeVehicle ex pu la ln now).model = ex.model ∧
      (mergeVehicle ex pu la ln now).brand = ex.brand ∧
      (mergeVehicle ex pu la ln now).vtype = ex.vtype ∧
      (mergeVehicle ex pu la ln now).speed = ex.speed ∧
      (mergeVehicle ex pu la ln now).initialDelay = ex.initialDelay ∧
      (mergeVehicle ex pu la ln now).status = pu.status ∧
      ∃ sd2, (mergeVehicle ex pu la ln now).simulationData = some sd2 ∧
        sd2.currentLat = some la ∧ sd2.currentLng = some ln ∧
        (∀ h : ℚ, pu.heading = some h → h ≠ 0 → sd2.heading = h) ∧
        (∀ pr : ℚ, pu.progress = some pr → pr ≠ 0 → sd2.progress = some pr) ∧
        (∀ dt : ℚ, pu.distanceTravelled = some dt → dt ≠ 0 →
          sd2.distanceTravelled = dt) ∧
        (∀ ts : ℤ, pu.timestamp = some ts → ts ≠ 0 → sd2.timestamp = ts) ∧
        (∀ stv : St, pu.status = some stv → sd2.status = stv)) ∧
    (pu.currentLat = some la → la ≠ 0 → pu.currentLng = some ln → ln ≠ 0 →
      rosterLookup prev pu.id = none →
      processPositionUpdate (rosterLookup prev) now pu
          = some (placeholderVehicle pu la ln now) ∧
      (placeholderVehicle pu la ln now).model = "Unknown Model" ∧
      (placeholderVehicle pu la ln now).brand = "Unknown Brand" ∧
      (placeholderVehicle pu la ln now).vtype = "Unknown Type" ∧
      (placeholderVehicle pu la ln now).plannedPath = some []) ∧
    ((truthyQ pu.currentLat = none ∨ truthyQ pu.currentLng = none) →
      rosterLookup prev pu.id = none →
      processPositionUpdate (rosterLookup prev) now pu = none) := by
  refine ⟨?_, ?_, ?_⟩
  · intro hla hla0 hln hln0 hex
    have htla : truthyQ pu.currentLat = some la := by rw [hla]; simp [truthyQ, hla0]
    have htln : truthyQ pu.currentLng = some ln := by rw [hln]; simp [truthyQ, hln0]
    refine ⟨by unfold processPositionUpdate; rw [htla, htln, hex], ?_, ?_, ?_, ?_, ?_,
      ?_, ?_, ?_, ?_, ?_⟩
    · simp [mergeVehicle]
    · simp [mergeVehicle]
    · simp [mergeVehicle]
    · simp [mergeVehicle]
    · simp [mergeVehicle]
    · simp [mergeVehicle]
    · simp [mergeVehicle]
    · simp [mergeVehicle]
    · simp [mergeVehicle]
    · refine ⟨_, rfl, ?_, ?_, ?_, ?_, ?_, ?_, ?_⟩
      · simp [mergeVehicle]
      · simp [mergeVehicle]
      · intro h hh hh0
        simp [mergeVehicle, hh, truthyQ, hh0]
      · intro pr hp hp0
        simp [mergeVehicle, hp, truthyQ, hp0]
      · intro dt hd hd0
        simp [mergeVehicle, hd, truthyQ, hd0]
      · intro ts ht ht0
        simp [mergeVehicle, ht, truthyZ, ht0]
      · intro stv hs
        simp [mergeVehicle, hs]
  · intro hla hla0 hln hln0 hex
    have htla : truthyQ pu.currentLat = some la := by rw [hla]; simp [truthyQ, hla0]
    have htln : truthyQ pu.currentLng = some ln := by rw [hln]; simp [truthyQ, hln0]
    refine ⟨by unfold processPositionUpdate; rw [htla, htln, hex], ?_, ?_, ?_, ?_⟩
    · simp [placeholderVehicle]
    · simp [placeholderVehicle]
    · simp [placeholderVehicle]
    · simp [placeholderVehicle]
  · rintro (h | h) hex
    · unfold processPositionUpdate
      rw [h, hex]
    · unfold processPositionUpdate
      rw [hex]
      cases truthyQ pu.currentLat with
      | none => rfl
      | some la2 => rw [h]

/-- Witness for C3: a full delta for known id 9 merges onto the local
vehicle, the same delta for an empty roster synthesises a placeholder,
and a position-less delta for an empty roster is dropped. -/
def puFullC3 : PositionDelta :=
  { id := 9, licensePlate := some "LP9N", currentLat := some 5, currentLng := some 6,
    heading := some 45, progress := some (1/2), status := some St.moving,
    distanceTravelled := some 3, timestamp := some 321 }

def puEmptyC3 : PositionDelta := { id := 11 }

theorem claim_C3_sparse_delta_merge_witness :
    ((mergeVehicle exVehicleC10 puFullC3 5 6 400).plannedPath
        = exVehicleC10.plannedPath ∧
      (mergeVehicle exVehicleC10 puFullC3 5 6 400).speed = exVehicleC10.speed) ∧
    (placeholderVehicle puFullC3 5 6 400).model = "Unknown Model" ∧
    processPositionUpdate (rosterLookup []) 400 puEmptyC3 = none := by
  have hlk : rosterLookup [exVehicleC10] puFullC3.id = some exVehicleC10 := by
    simp [rosterLookup, exVehicleC10, puFullC3]
  have h1 := (claim_C3_sparse_delta_merge [exVehicleC10] 400 puFullC3
      exVehicleC10 5 6).1 (by simp [puFullC3]) (by norm_num)
    (by simp [puFullC3]) (by norm_num) hlk
  have h2 := (claim_C3_sparse_delta_merge ([] : List Vehicle) 400 puFullC3
      exVehicleC10 5 6).2.1 (by simp [puFullC3]) (by norm_num)
    (by simp [puFullC3]) (by norm_num) (by simp [rosterLookup])
  have h3 := (claim_C3_sparse_delta_merge ([] : List Vehicle) 400 puEmptyC3
      exVehicleC10 0 0).2.2 (Or.inl (by simp [puEmptyC3, truthyQ]))
    (by simp [rosterLookup])
  exact ⟨⟨h1.2.1, h1.2.2.2.2.2.2.2.1⟩, h2.2.1, h3⟩

/-- Counterexample to C5 as stated: stopping a run does NOT clear the
kinematics.  For a concrete vehicle with kinematics present, both the
producer-side `stopSimulation` roster update and the viewer-side
`SIMULATION_STOPPED` handler keep `simulationData` intact (it stays
`some exSimC10`, not `none`), while only `status` is reset to idle. -/
theorem claim_C5_counterexample_kinematics_kept :
    (stopSimulationRoster [exVehicleC10]).map (fun v => v.simulationData)
        = [some exSimC10] ∧
    (handleSimulationStoppedRoster [exVehicleC10]).map (fun v => v.simulationData)
        = [some exSimC10] ∧
    (some exSimC10 ≠ (none : Option SimData)) := by
  refine ⟨?_, ?_, by simp⟩
  · simp [stopSimulationRoster, exVehicleC10]
  · simp [handleSimulationStoppedRoster, exVehicleC10]

/-- Claim C5 (amended): stopping a run resets every vehicle of the roster
to status idle, on the producer side (`stopSimulation`) and on the viewer
side (`SIMULATION_STOPPED` handler) alike; the kinematics
(`simulationData`) are retained unchanged, not cleared. -/
theorem claim_C5_stop_resets_status (roster : List Vehicle) :
    (∀ w ∈ stopSimulationRoster roster, w.status = some St.idle) ∧
    (∀ w ∈ handleSimulationStoppedRoster roster, w.status = some St.idle) ∧
    (stopSimulationRoster roster).map (fun v => v.simulationData)
        = roster.map (fun v => v.simulationData) ∧
    (handleSimulationStoppedRoster roster).map (fun v => v.simulationData)
        = roster.map (fun v => v.simulationData) := by
  refine ⟨?_, ?_, ?_, ?_⟩
  · intro w hw
    rcases List.mem_map.1 hw with ⟨v, _, hv⟩
    rw [← hv]
  · intro w hw
    rcases List.mem_map.1 hw with ⟨v, _, hv⟩
    rw [← hv]
  · rw [stopSimulationRoster, List.map_map]
    rfl
  · rw [handleSimulationStoppedRoster, List.map_map]
    rfl

/-- Witness for (amended) C5 at a concrete one-vehicle roster. -/
theorem claim_C5_stop_resets_status_witness :
    ((stopSimulationRoster [exVehicleC10]).headD exVehicleC10).status
        = some St.idle :=
  (claim_C5_stop_resets_status [exVehicleC10]).1
    ((stopSimulationRoster [exVehicleC10]).headD exVehicleC10)
    (by simp [stopSimulationRoster])

/-- Claim C8: once the reconnection counter has reached
`maxReconnectAttempts = 10` (the state after 10 consecutive failed
attempts), no failure event schedules another connection attempt, the
disconnect path surfaces the error "Max reconnection attempts reached",
and only `forceReconnect` leaves that state, clearing the counter to 0
and scheduling an immediate attempt; below the cap, every failure event
schedules a retry after `min(1000 · 2^attempts, 30000)` ms for the
incremented counter value. -/
theorem claim_C8_reconnect_backoff_and_cap (s : WsState) (msg : String) (code : ℤ) :
    (maxReconnectAttempts ≤ s.reconnectAttempts →
      (wsStep true s WsEvent.onDisconnect).2 = none ∧
      (wsStep true s (WsEvent.onStompError msg)).2 = none ∧
      (wsStep true s WsEvent.onWebSocketError).2 = none ∧
      (wsStep true s (WsEvent.onWebSocketClose code)).2 = none ∧
      (wsStep true s WsEvent.onDisconnect).1.reconnectAttempts = s.reconnectAttempts ∧
      (wsStep true s WsEvent.onDisconnect).1.connectionError
          = some ("Max reconnection attempts reached")) ∧
    (s.reconnectAttempts < maxReconnectAttempts →
      (wsStep true s WsEvent.onDisconnect).2
          = some (min (1000 * 2 ^ (s.reconnectAttempts + 1)) 30000) ∧
      (wsStep true s WsEvent.onDisconnect).1.reconnectAttempts
          = s.reconnectAttempts + 1 ∧
      (wsStep true s (WsEvent.onStompError msg)).2
          = some (min (1000 * 2 ^ (s.reconnectAttempts + 1)) 30000) ∧
      (wsStep true s WsEvent.onWebSocketError).2
          = some (min (1000 * 2 ^ (s.reconnectAttempts + 1)) 30000) ∧
      (code ≠ 1000 →
        (wsStep true s (WsEvent.onWebSocketClose code)).2
            = some (min (1000 * 2 ^ (s.reconnectAttempts + 1)) 30000))) ∧
    ((wsStep true s WsEvent.forceReconnect).1.reconnectAttempts = 0 ∧
      (wsStep true s WsEvent.forceReconnect).1.connectionError = none ∧
      (wsStep true s WsEvent.forceReconnect).2 = some 0) ∧
    (((fun st => (wsStep true st WsEvent.onDisconnect).1)^[maxReconnectAttempts]
        { reconnectAttempts := 0, isConnected := true, connectionError := none }).reconnectAttempts
      = maxReconnectAttempts) := by
  refine ⟨?_, ?_, ?_, by decide⟩
  · intro h
    have hnot : ¬ s.reconnectAttempts < maxReconnectAttempts := not_lt.2 h
    refine ⟨?_, ?_, ?_, ?_, ?_, ?_⟩
    · simp [wsStep, hnot, h]
    · simp [wsStep, hnot]
    · simp [wsStep, hnot]
    · simp [wsStep, hnot]
    · simp [wsStep, hnot, h]
    · simp [wsStep, hnot, h]
  · intro h
    refine ⟨?_, ?_, ?_, ?_, ?_⟩
    · simp [wsStep, h, connectSched, backoffDelay]
    · simp [wsStep, h]
    · simp [wsStep, h, connectSched, backoffDelay]
    · simp [wsStep, h, connectSched, backoffDelay]
    · intro hc
      simp [wsStep, h, hc, connectSched, backoffDelay]
  · refine ⟨?_, ?_, ?_⟩
    · simp [wsStep]
    · simp [wsStep]
    · simp [wsStep, connectSched]

/-- The state after ten consecutive failed reconnection attempts. -/
def wsStateTen : WsState :=
  { reconnectAttempts := 10, isConnected := false, connectionError := none }

def wsStateThree : WsState :=
  { reconnectAttempts := 3, isConnected := false, connectionError := none }

/-- Witness for C8 at the concrete failed state (10 attempts) and at a
concrete intermediate state (3 attempts). -/
theorem claim_C8_reconnect_backoff_and_cap_witness :
    (wsStep true wsStateTen WsEvent.onDisconnect).2 = none ∧
    (wsStep true wsStateThree WsEvent.onDisconnect).2
      = some (min (1000 * 2 ^ (wsStateThree.reconnectAttempts + 1)) 30000) :=
  ⟨((claim_C8_reconnect_backoff_and_cap wsStateTen "" 1006).1
      (by simp [maxReconnectAttempts, wsStateTen])).1,
    ((claim_C8_reconnect_backoff_and_cap wsStateThree "" 1006).2.1
      (by simp [maxReconnectAttempts, wsStateThree])).1⟩

/-- Claim C2: on run start a vehicle with a non-empty planned path and
zero initial delay enters MOVING immediately with `startTime = now`,
while one with delay `d > 0` enters the DELAYED state
(`isDelayed`, `delayStartTime = now`); on each tick it remains DELAYED
while fewer than `d` wall-clock seconds have elapsed since
`delayStartTime`, its status label showing the remaining whole seconds
rounded up, and on the first tick at or after the deadline it transitions
to MOVING with `startTime` reset to the tick's current time. -/
theorem claim_C2_delay_transitions (dist bear : ℚ → ℚ → ℚ → ℚ → ℚ)
    (mult : ℚ) (ws : Bool) (now tnow : ℤ) (r : ℚ) (v w : Vehicle)
    (p0 : PathPoint) (rest : List PathPoint) (sd : SimData)
    (path : List PathPoint) (t0 : ℤ) :
    (v.plannedPath = some (p0 :: rest) → v.initialDelay = 0 →
      (initVehicle now r v).status = some St.moving ∧
      ∃ sd1, (initVehicle now r v).simulationData = some sd1 ∧
        sd1.startTime = some now ∧ sd1.isDelayed = false ∧ sd1.status = St.moving) ∧
    (v.plannedPath = some (p0 :: rest) → 0 < v.initialDelay →
      (initVehicle now r v).status = some St.idle ∧
      ∃ sd1, (initVehicle now r v).simulationData = some sd1 ∧
        sd1.isDelayed = true ∧ sd1.delayStartTime = some now ∧
        sd1.status = St.delayedPlain) ∧
    (w.simulationData = some sd → w.plannedPath = some path →
      sd.isDelayed = true → sd.delayStartTime = some t0 → t0 ≠ 0 →
      tnow - t0 < w.initialDelay * 1000 →
      simulateVehicleTick dist bear mult ws tnow w =
        ({ w with
            status := some St.idle,
            simulationData := some
              { sd with status := St.delayedRem
                          ⌈(((w.initialDelay * 1000 - (tnow - t0)) : ℤ) : ℚ) / 1000⌉ } },
          [])) ∧
    (w.simulationData = some sd → w.plannedPath = some path →
      sd.isDelayed = true → sd.delayStartTime = some t0 → t0 ≠ 0 →
      w.initialDelay * 1000 ≤ tnow - t0 →
      simulateVehicleTick dist bear mult ws tnow w =
        ({ w with
            status := some St.moving,
            simulationData := some
              { sd with isDelayed := false, status := St.moving,
                        startTime := some tnow } },
          if ws then [SimEvent.vehicleStartedMoving w.id] else [])) := by
  refine ⟨?_, ?_, ?_, ?_⟩
  · intro hp hd
    have hnd : ¬ (0 < v.initialDelay) := by rw [hd]; simp
    rw [initVehicle, hp]
    simp only [hnd, if_false]
    exact ⟨trivial, _, rfl, rfl, rfl, rfl⟩
  · intro hp hd
    rw [initVehicle, hp]
    simp only [hd, if_true]
    exact ⟨trivial, _, rfl, rfl, rfl, rfl⟩
  · intro hsd hpath hdel ht0 ht00 hlt
    have htr : truthyZ sd.delayStartTime = some t0 := by
      rw [ht0]; simp [truthyZ, ht00]
    simp only [simulateVehicleTick, hsd, hpath, htr, hdel]
    rw [if_pos hlt]
  · intro hsd hpath hdel ht0 ht00 hge
    have htr : truthyZ sd.delayStartTime = some t0 := by
      rw [ht0]; simp [truthyZ, ht00]
    simp only [simulateVehicleTick, hsd, hpath, htr, hdel]
    rw [if_neg (not_lt.2 hge)]

def pathC2 : List PathPoint := [{ lat := 0, lng := 0 }, { lat := 1, lng := 0 }]

def vZeroC2 : Vehicle :=
  { id := 1, licensePlate := "Z", model := "M", brand := "B", vtype := "T",
    speed := 50, initialDelay := 0, plannedPath := some pathC2 }

def sdDelC2 : SimData :=
  { avgSpeed := 50, latitude := 0, longitude := 0, heading := 0,
    status := St.delayedPlain, timestamp := 1000, fuelLevel := 75,
    engineStatus := true, distanceTravelled := 0, startTime := some 11000,
    currentLat := some 0, currentLng := some 0, progress := some 0,
    pathIndex := some 0, delayStartTime := some 1000, isDelayed := true }

def vDelC2 : Vehicle :=
  { id := 2, licensePlate := "D", model := "M", brand := "B", vtype := "T",
    speed := 50, initialDelay := 10, status := some St.idle,
    simulationData := some sdDelC2, plannedPath := some pathC2 }

/-- Witness for C2: a zero-delay vehicle starts moving at run start; a
10-second delayed vehicle ticked 5 s in shows "delayed (5s)" and stays
idle, and ticked at the deadline turns moving with `startTime` reset. -/
theorem claim_C2_delay_transitions_witness :
    (initVehicle 1000 0 vZeroC2).status = some St.moving ∧
    (simulateVehicleTick taxiDist taxiDist 1 false 6000 vDelC2).1.status
        = some St.idle ∧
    ((simulateVehicleTick taxiDist taxiDist 1 false 6000 vDelC2).1.simulationData.map
        (fun s => s.status)) = some (St.delayedRem 5) ∧
    (simulateVehicleTick taxiDist taxiDist 1 false 11000 vDelC2).1.status
        = some St.moving ∧
    ((simulateVehicleTick taxiDist taxiDist 1 false 11000 vDelC2).1.simulationData.bind
        (fun s => s.startTime)) = some 11000 := by
  have h6 := claim_C2_delay_transitions taxiDist taxiDist 1 false 1000 6000 0
    vZeroC2 vDelC2 { lat := 0, lng := 0 } [{ lat := 1, lng := 0 }] sdDelC2 pathC2 1000
  have h11 := claim_C2_delay_transitions taxiDist taxiDist 1 false 1000 11000 0
    vZeroC2 vDelC2 { lat := 0, lng := 0 } [{ lat := 1, lng := 0 }] sdDelC2 pathC2 1000
  have h1 := h6.1 (by simp [vZeroC2, pathC2]) (by simp [vZeroC2])
  have h3 := h6.2.2.1 (by simp [vDelC2]) (by simp [vDelC2, pathC2])
    (by simp [sdDelC2]) (by simp [sdDelC2]) (by norm_num)
    (by norm_num [vDelC2])
  have h4 := h11.2.2.2 (by simp [vDelC2]) (by simp [vDelC2, pathC2])
    (by simp [sdDelC2]) (by simp [sdDelC2]) (by norm_num)
    (by norm_num [vDelC2])
  have hceil : (⌈(((vDelC2.initialDelay * 1000 - (6000 - 1000)) : ℤ) : ℚ) / 1000⌉ : ℤ) = 5 := by
    have : (((vDelC2.initialDelay * 1000 - (6000 - 1000)) : ℤ) : ℚ) / 1000 = ((5 : ℤ) : ℚ) := by
      norm_num [vDelC2]
    rw [this, Int.ceil_intCast]
  refine ⟨h1.1, ?_, ?_, ?_, ?_⟩
  · rw [h3]
  · rw [h3]
    simp [vDelC2]
    norm_num
  · rw [h4]
  · rw [h4]
    rfl

/-- A tick on a vehicle whose kinematics are not delayed goes straight to
the moving-branch logic. -/
lemma simulateVehicleTick_notDelayed (dist bear : ℚ → ℚ → ℚ → ℚ → ℚ)
    (mult : ℚ) (ws : Bool) (now : ℤ) (v : Vehicle) (sd : SimData)
    (path : List PathPoint) (hsd : v.simulationData = some sd)
    (hpath : v.plannedPath = some path) (hdel : sd.isDelayed = false) :
    simulateVehicleTick dist bear mult ws now v
      = movingTick dist bear mult ws now v sd path := by
  simp only [simulateVehicleTick, hsd, hpath]
  cases truthyZ sd.delayStartTime with
  | none => rfl
  | some dst => rw [hdel]

/-- The completion snap of the moving branch, entered when
`1 ≤ elapsed / journeyDuration`. -/
lemma movingTick_snap (dist bear : ℚ → ℚ → ℚ → ℚ → ℚ) (mult : ℚ) (ws : Bool)
    (now : ℤ) (v : Vehicle) (sd : SimData) (path : List PathPoint) (st : ℤ)
    (htr : truthyZ sd.startTime = some st) (hmov : v.status = some St.moving)
    (h1 : 1 ≤ ((now - st : ℤ) : ℚ)
      / (calculatePathDistance dist path / (v.speed / 3600) * 1000 / mult)) :
    ∃ sd1 evs, movingTick dist bear mult ws now v sd path =
        ({ v with currentWaypoint := v.targetWaypoint, status := some St.stopped,
                  simulationData := some sd1 }, evs) ∧
      sd1.progress = some 1 ∧ sd1.isDelayed = sd.isDelayed := by
  have h1c : (1:ℚ) ≤ min (((now - st : ℤ) : ℚ)
      / (calculatePathDistance dist path / (v.speed / 3600) * 1000 / mult)) 1 :=
    le_min h1 le_rfl
  simp only [movingTick, htr, hmov]
  rw [if_pos h1c]
  exact ⟨_, _, rfl, rfl, rfl⟩

/-- The interpolated update of the moving branch, entered when
`elapsed / journeyDuration < 1`. -/
lemma movingTick_else (dist bear : ℚ → ℚ → ℚ → ℚ → ℚ) (mult : ℚ) (ws : Bool)
    (now : ℤ) (v : Vehicle) (sd : SimData) (path : List PathPoint) (st : ℤ)
    (htr : truthyZ sd.startTime = some st) (hmov : v.status = some St.moving)
    (h2 : ¬ 1 ≤ ((now - st : ℤ) : ℚ)
      / (calculatePathDistance dist path / (v.speed / 3600) * 1000 / mult)) :
    ∃ sd1, movingTick dist bear mult ws now v sd path
        = ({ v with simulationData := some sd1 }, []) ∧
      sd1.progress = some (min (((now - st : ℤ) : ℚ)
        / (calculatePathDistance dist path / (v.speed / 3600) * 1000 / mult)) 1) ∧
      sd1.startTime = sd.startTime ∧ sd1.isDelayed = sd.isDelayed := by
  have h2c : ¬ (1:ℚ) ≤ min (((now - st : ℤ) : ℚ)
      / (calculatePathDistance dist path / (v.speed / 3600) * 1000 / mult)) 1 := by
    rw [not_le] at h2 ⊢
    exact min_lt_iff.2 (Or.inl h2)
  simp only [movingTick, htr, hmov]
  rw [if_neg h2c]
  exact ⟨_, rfl, rfl, rfl, rfl⟩

/-- A vehicle that is not in the moving status is untouched by the moving
branch. -/
lemma movingTick_notMoving (dist bear : ℚ → ℚ → ℚ → ℚ → ℚ) (mult : ℚ)
    (ws : Bool) (now : ℤ) (v : Vehicle) (sd : SimData) (path : List PathPoint)
    (h : v.status ≠ some St.moving) :
    movingTick dist bear mult ws now v sd path = (v, []) := by
  simp only [movingTick]
  cases htr : truthyZ sd.startTime with
  | none =>
    cases hv : v.status with
    | none => rfl
    | some s => cases s <;> rfl
  | some stt =>
    cases hv : v.status with
    | none => rfl
    | some s =>
      cases s with
      | moving => exact absurd hv h
      | idle => rfl
      | stopped => rfl
      | delayedPlain => rfl
      | delayedRem n => rfl
      | completed => rfl

/-- Claim C4 (amended): while a vehicle is moving, its progress value is
monotonically non-decreasing from one tick to the next as long as the
playback multiplier is unchanged — which covers pause/resume, since the
loop teardown and recreation leave `startTime` and the multiplier intact.
(Changing the multiplier between ticks can decrease progress, see the
counterexample: `startTime` is kept while `journeyDuration` rescales.) -/
theorem claim_C4_progress_monotone_fixed_multiplier
    (dist bear : ℚ → ℚ → ℚ → ℚ → ℚ) (mult : ℚ) (ws1 ws2 : Bool)
    (t1 t2 st : ℤ) (v : Vehicle) (sd : SimData) (path : List PathPoint)
    (hsd : v.simulationData = some sd) (hpath : v.plannedPath = some path)
    (hdel : sd.isDelayed = false) (hst : sd.startTime = some st)
    (hst0 : st ≠ 0) (hmov : v.status = some St.moving)
    (hspeed : 0 < v.speed) (hmult : 0 < mult)
    (htot : 0 < calculatePathDistance dist path) (hle : t1 ≤ t2) :
    ∃ p1 p2,
      (simulateVehicleTick dist bear mult ws1 t1 v).1.simulationData.bind
          (fun s => s.progress) = some p1 ∧
      (simulateVehicleTick dist bear mult ws2 t2
            (simulateVehicleTick dist bear mult ws1 t1 v).1).1.simulationData.bind
          (fun s => s.progress) = some p2 ∧
      p1 ≤ p2 := by
  have htr : truthyZ sd.startTime = some st := by rw [hst]; simp [truthyZ, hst0]
  have hJDpos : 0 < calculatePathDistance dist path / (v.speed / 3600) * 1000 / mult := by
    have h36 : (0:ℚ) < v.speed / 3600 := div_pos hspeed (by norm_num)
    have := mul_pos (div_pos htot h36) (show (0:ℚ) < 1000 by norm_num)
    exact div_pos this hmult
  have hstep1 := simulateVehicleTick_notDelayed dist bear mult ws1 t1 v sd path hsd hpath hdel
  by_cases hc1 : 1 ≤ ((t1 - st : ℤ) : ℚ)
      / (calculatePathDistance dist path / (v.speed / 3600) * 1000 / mult)
  · obtain ⟨sd1, evs, heq, hprog1, hdel1⟩ :=
      movingTick_snap dist bear mult ws1 t1 v sd path st htr hmov hc1
    refine ⟨1, 1, ?_, ?_, le_rfl⟩
    · rw [hstep1, heq]
      simp [hprog1]
    · rw [hstep1, heq]
      have hdel1f : sd1.isDelayed = false := by rw [hdel1, hdel]
      have hstep2 := simulateVehicleTick_notDelayed dist bear mult ws2 t2
        ({ v with currentWaypoint := v.targetWaypoint, status := some St.stopped,
                  simulationData := some sd1 }) sd1 path rfl (by simpa using hpath) hdel1f
      rw [hstep2, movingTick_notMoving dist bear mult ws2 t2 _ sd1 path (by simp)]
      simp [hprog1]
  · obtain ⟨sd1, heq, hprog1, hst1, hdel1⟩ :=
      movingTick_else dist bear mult ws1 t1 v sd path st htr hmov hc1
    have hdel1f : sd1.isDelayed = false := by rw [hdel1, hdel]
    have htr1 : truthyZ sd1.startTime = some st := by rw [hst1, hst]; simp [truthyZ, hst0]
    have hstep2 := simulateVehicleTick_notDelayed dist bear mult ws2 t2
      ({ v with simulationData := some sd1 }) sd1 path rfl (by simpa using hpath) hdel1f
    have hx12 : ((t1 - st : ℤ) : ℚ) ≤ ((t2 - st : ℤ) : ℚ) := by
      exact_mod_cast Int.sub_le_sub_right hle st
    by_cases hc2 : 1 ≤ ((t2 - st : ℤ) : ℚ)
        / (calculatePathDistance dist path / (v.speed / 3600) * 1000 / mult)
    · obtain ⟨sd2, evs2, heq2, hprog2, _⟩ :=
        movingTick_snap dist bear mult ws2 t2 ({ v with simulationData := some sd1 })
          sd1 path st htr1 hmov hc2
      refine ⟨min (((t1 - st : ℤ) : ℚ)
          / (calculatePathDistance dist path / (v.speed / 3600) * 1000 / mult)) 1,
        1, ?_, ?_, min_le_right _ _⟩
      · rw [hstep1, heq]
        simpa using hprog1
      · rw [hstep1, heq, hstep2, heq2]
        simp [hprog2]
    · obtain ⟨sd2, heq2, hprog2, _, _⟩ :=
        movingTick_else dist bear mult ws2 t2 ({ v with simulationData := some sd1 })
          sd1 path st htr1 hmov hc2
      refine ⟨min (((t1 - st : ℤ) : ℚ)
          / (calculatePathDistance dist path / (v.speed / 3600) * 1000 / mult)) 1,
        min (((t2 - st : ℤ) : ℚ)
          / (calculatePathDistance dist path / (v.speed / 3600) * 1000 / mult)) 1,
        ?_, ?_, ?_⟩
      · rw [hstep1, heq]
        simpa using hprog1
      · rw [hstep1, heq, hstep2, heq2]
        simpa using hprog2
      · exact min_le_min ((div_le_div_right hJDpos).2 hx12) le_rfl

def sdMovC4 : SimData :=
  { avgSpeed := 3600, latitude := 0, longitude := 0, heading := 0,
    status := St.moving, timestamp := 1000, fuelLevel := 75,
    engineStatus := true, distanceTravelled := 0, startTime := some 1000,
    currentLat := some 0, currentLng := some 0, progress := some 0,
    pathIndex := some 0, delayStartTime := none, isDelayed := false }

def vMovC4 : Vehicle :=
  { id := 3, licensePlate := "C4", model := "M", brand := "B", vtype := "T",
    speed := 3600, initialDelay := 0, status := some St.moving,
    simulationData := some sdMovC4, plannedPath := some pathC2 }

/-- Counterexample to C4 as stated: progress is NOT monotone across a
playback-multiplier change.  The loop recreation keeps `startTime`, so
for a 1 km path at 3600 km/h started at `t = 1000` ms, a tick at
`t = 1050` under multiplier 10 yields progress `1/2`, but the next tick
at `t = 1060` under multiplier 1 yields progress `3/50 < 1/2`. -/
theorem claim_C4_counterexample_multiplier_drop :
    (simulateVehicleTick taxiDist taxiDist 10 false 1050 vMovC4).1.simulationData.bind
        (fun s => s.progress) = some (1/2) ∧
    (simulateVehicleTick taxiDist taxiDist 1 false 1060
          (simulateVehicleTick taxiDist taxiDist 10 false 1050 vMovC4).1).1.simulationData.bind
        (fun s => s.progress) = some (3/50) ∧
    ¬ ((1:ℚ)/2 ≤ 3/50) := by
  have h1 : simulateVehicleTick taxiDist taxiDist 10 false 1050 vMovC4
      = movingTick taxiDist taxiDist 10 false 1050 vMovC4 sdMovC4 pathC2 :=
    simulateVehicleTick_notDelayed taxiDist taxiDist 10 false 1050 vMovC4 sdMovC4
      pathC2 (by simp [vMovC4]) (by simp [vMovC4]) (by simp [sdMovC4])
  have htot : calculatePathDistance taxiDist pathC2 = 1 := by
    norm_num [calculatePathDistance, segDistances, pathC2, taxiDist]
  have htr : truthyZ sdMovC4.startTime = some 1000 := by
    simp [sdMovC4, truthyZ]
  obtain ⟨sd1, heq1, hprog1, hst1, hdel1⟩ :=
    movingTick_else taxiDist taxiDist 10 false 1050 vMovC4 sdMovC4 pathC2 1000
      htr (by simp [vMovC4])
      (by rw [htot]; norm_num [vMovC4])
  have hprog1v : sd1.progress = some (1/2) := by
    rw [hprog1, htot]
    norm_num [vMovC4]
  have htr1 : truthyZ sd1.startTime = some 1000 := by
    rw [hst1]; exact htr
  have hdel1f : sd1.isDelayed = false := by rw [hdel1]; simp [sdMovC4]
  have h2 : simulateVehicleTick taxiDist taxiDist 1 false 1060
        ({ vMovC4 with simulationData := some sd1 })
      = movingTick taxiDist taxiDist 1 false 1060
          ({ vMovC4 with simulationData := some sd1 }) sd1 pathC2 :=
    simulateVehicleTick_notDelayed taxiDist taxiDist 1 false 1060 _ sd1 pathC2
      rfl (by simp [vMovC4]) hdel1f
  obtain ⟨sd2, heq2, hprog2, hst2, hdel2⟩ :=
    movingTick_else taxiDist taxiDist 1 false 1060
      ({ vMovC4 with simulationData := some sd1 }) sd1 pathC2 1000
      htr1 (by simp [vMovC4])
      (by rw [htot]; norm_num [vMovC4])
  have hprog2v : sd2.progress = some (3/50) := by
    rw [hprog2, htot]
    norm_num [vMovC4]
  refine ⟨?_, ?_, by norm_num⟩
  · rw [h1, heq1]
    simp [hprog1v]
  · rw [h1, heq1, h2, heq2]
    simp [hprog2v]

def sdMovC4w : SimData :=
  { avgSpeed := 3600, latitude := 0, longitude := 0, heading := 0,
    status := St.moving, timestamp := 1000, fuelLevel := 75,
    engineStatus := true, distanceTravelled := 0, startTime := some 1000,
    currentLat := some 0, currentLng := some 0, progress := some 0,
    pathIndex := some 0, delayStartTime := none, isDelayed := false }

def vMovC4w : Vehicle :=
  { id := 4, licensePlate := "C4W", model := "M", brand := "B", vtype := "T",
    speed := 3600, initialDelay := 0, status := some St.moving,
    simulationData := some sdMovC4w, plannedPath := some pathC2 }

/-- Witness for (amended) C4 at concrete inputs under a fixed multiplier:
the journey completes at the first tick and progress stays at 1. -/
theorem claim_C4_progress_monotone_fixed_multiplier_witness :
    (simulateVehicleTick taxiDist taxiDist 2 false 2000 vMovC4w).1.simulationData.bind
        (fun s => s.progress) = some 1 ∧
    (simulateVehicleTick taxiDist taxiDist 2 false 2100
          (simulateVehicleTick taxiDist taxiDist 2 false 2000 vMovC4w).1).1.simulationData.bind
        (fun s => s.progress) = some 1 ∧
    ((1:ℚ) ≤ 1) := by
  have htot : calculatePathDistance taxiDist pathC2 = 1 := by
    norm_num [calculatePathDistance, segDistances, pathC2, taxiDist]
  have htr : truthyZ sdMovC4w.startTime = some 1000 := by
    simp [sdMovC4w, truthyZ]
  have hstep1 : simulateVehicleTick taxiDist taxiDist 2 false 2000 vMovC4w
      = movingTick taxiDist taxiDist 2 false 2000 vMovC4w sdMovC4w pathC2 :=
    simulateVehicleTick_notDelayed taxiDist taxiDist 2 false 2000 vMovC4w sdMovC4w
      pathC2 (by simp [vMovC4w]) (by simp [vMovC4w]) (by simp [sdMovC4w])
  obtain ⟨sd1, evs, heq1, hprog1, hdel1⟩ :=
    movingTick_snap taxiDist taxiDist 2 false 2000 vMovC4w sdMovC4w pathC2 1000
      htr (by simp [vMovC4w]) (by rw [htot]; norm_num [vMovC4w])
  have e1 : (simulateVehicleTick taxiDist taxiDist 2 false 2000 vMovC4w).1.simulationData.bind
      (fun s => s.progress) = some 1 := by
    rw [hstep1, heq1]
    simp [hprog1]
  have hdel1f : sd1.isDelayed = false := by rw [hdel1]; simp [sdMovC4w]
  have hstep2 : simulateVehicleTick taxiDist taxiDist 2 false 2100
        ({ vMovC4w with currentWaypoint := vMovC4w.targetWaypoint,
                        status := some St.stopped, simulationData := some sd1 })
      = movingTick taxiDist taxiDist 2 false 2100
          ({ vMovC4w with currentWaypoint := vMovC4w.targetWaypoint,
                          status := some St.stopped, simulationData := some sd1 })
          sd1 pathC2 :=
    simulateVehicleTick_notDelayed taxiDist taxiDist 2 false 2100 _ sd1 pathC2
      rfl (by simp [vMovC4w]) hdel1f
  have e2 : (simulateVehicleTick taxiDist taxiDist 2 false 2100
        (simulateVehicleTick taxiDist taxiDist 2 false 2000 vMovC4w).1).1.simulationData.bind
      (fun s => s.progress) = some 1 := by
    rw [hstep1, heq1]
    simp only []
    rw [hstep2, movingTick_notMoving taxiDist taxiDist 2 false 2100 _ sd1 pathC2 (by simp)]
    simp [hprog1]
  obtain ⟨p1, p2, h1, h2, hle⟩ :=
    claim_C4_progress_monotone_fixed_multiplier taxiDist taxiDist 2 false false
      2000 2100 1000 vMovC4w sdMovC4w pathC2
      (by simp [vMovC4w]) (by simp [vMovC4w]) (by simp [sdMovC4w])
      (by simp [sdMovC4w]) (by norm_num) (by simp [vMovC4w])
      (by norm_num [vMovC4w]) (by norm_num) (by rw [htot]; norm_num) (by norm_num)
  rw [e1] at h1
  rw [e2] at h2
  cases h1
  cases h2
  exact ⟨e1, e2, hle⟩

lemma getLastD_append_singleton {α : Type} :
    ∀ (l : List α) (x d : α), (l ++ [x]).getLastD d = x := by
  intro l x
  induction l with
  | nil => intro d; rfl
  | cons y ys ih =>
    intro d
    rw [List.cons_append, List.getLastD_cons]
    exact ih y

/-- Repeated triangle inequality along a chain of path points. -/
lemma chain_le_sum (dist : ℚ → ℚ → ℚ → ℚ → ℚ)
    (htri : ∀ a1 b1 a2 b2 a3 b3 : ℚ,
      dist a1 b1 a3 b3 ≤ dist a1 b1 a2 b2 + dist a2 b2 a3 b3) :
    ∀ (rest : List PathPoint) (p q : PathPoint),
      dist p.lat p.lng ((q :: rest).getLastD defaultPathPoint).lat
          ((q :: rest).getLastD defaultPathPoint).lng
        ≤ dist p.lat p.lng q.lat q.lng + (segDistances dist (q :: rest)).sum := by
  intro rest
  induction rest with
  | nil =>
    intro p q
    simp [segDistances, List.getLastD]
  | cons r rs ih =>
    intro p q
    have h4 : (segDistances dist (q :: r :: rs)).sum
        = dist q.lat q.lng r.lat r.lng + (segDistances dist (r :: rs)).sum := by
      simp [segDistances]
    have h5 : (q :: r :: rs).getLastD defaultPathPoint
        = (r :: rs).getLastD defaultPathPoint := by
      simp [List.getLastD_cons]
    have h3 := ih q r
    have h6 := htri p.lat p.lng q.lat q.lng
      ((r :: rs).getLastD defaultPathPoint).lat ((r :: rs).getLastD defaultPathPoint).lng
    rw [h5, h4]
    linarith

lemma dist_le_pathDistance (dist : ℚ → ℚ → ℚ → ℚ → ℚ)
    (htri : ∀ a1 b1 a2 b2 a3 b3 : ℚ,
      dist a1 b1 a3 b3 ≤ dist a1 b1 a2 b2 + dist a2 b2 a3 b3)
    (p q : PathPoint) (pts : List PathPoint) :
    dist p.lat p.lng ((p :: q :: pts).getLastD defaultPathPoint).lat
        ((p :: q :: pts).getLastD defaultPathPoint).lng
      ≤ calculatePathDistance dist (p :: q :: pts) := by
  have h := chain_le_sum dist htri pts p q
  have h5 : (p :: q :: pts).getLastD defaultPathPoint
      = (q :: pts).getLastD defaultPathPoint := by
    simp [List.getLastD_cons]
  rw [h5, calculatePathDistance]
  simpa [segDistances] using h

lemma smoothSegs_cons (a b : PathPoint) (rest : List PathPoint) :
    smoothSegs (a :: b :: rest) = (a :: interpBetween a b) ++ smoothSegs (b :: rest) := by
  rw [smoothSegs]

lemma dist_le_pathDistance2 (dist : ℚ → ℚ → ℚ → ℚ → ℚ)
    (htri : ∀ a1 b1 a2 b2 a3 b3 : ℚ,
      dist a1 b1 a3 b3 ≤ dist a1 b1 a2 b2 + dist a2 b2 a3 b3)
    (p : PathPoint) (pts : List PathPoint) (h : pts ≠ []) :
    dist p.lat p.lng ((p :: pts).getLastD defaultPathPoint).lat
        ((p :: pts).getLastD defaultPathPoint).lng
      ≤ calculatePathDistance dist (p :: pts) := by
  cases pts with
  | nil => exact absurd rfl h
  | cons q rest => exact dist_le_pathDistance dist htri p q rest

/-- Claim C6 (amended): for every route produced by the composer, if the
distance function satisfies the triangle inequality (as the Haversine
great-circle distance does) the cumulative distance along the route's
points is at least the direct distance; when the direct distance is below
5 km the route is exactly the source, four linearly interpolated points
and the destination (no intermediate waypoints), and the cumulative
distance then equals the direct distance exactly when the distance
function is additive along that linear subdivision — which holds for
straight-line metrics, while for the Haversine it holds only up to the
interpolation error (linear lat/lng interpolation does not follow the
great circle). -/
theorem claim_C6_route_distance (dist : ℚ → ℚ → ℚ → ℚ → ℚ)
    (src dst : Waypoint) (pool : List Waypoint)
    (htri : ∀ a1 b1 a2 b2 a3 b3 : ℚ,
      dist a1 b1 a3 b3 ≤ dist a1 b1 a2 b2 + dist a2 b2 a3 b3) :
    dist src.lat src.lng dst.lat dst.lng
        ≤ calculatePathDistance dist (calculateOptimalPath dist pool src dst) ∧
    (dist src.lat src.lng dst.lat dst.lng < 5 →
      calculateOptimalPath dist pool src dst
        = anchorPoint src ::
            (interpBetween (anchorPoint src) (anchorPoint dst) ++ [anchorPoint dst])) ∧
    ((∀ p q : PathPoint,
        (segDistances dist (p :: (interpBetween p q ++ [q]))).sum
          = dist p.lat p.lng q.lat q.lng) →
      dist src.lat src.lng dst.lat dst.lng < 5 →
      calculatePathDistance dist (calculateOptimalPath dist pool src dst)
        = dist src.lat src.lng dst.lat dst.lng) := by
  have hdirect : calculateOptimalPath dist pool src dst
      = smoothSegs (anchorPoint src ::
          ((findPathWaypoints dist src dst
            (pool.filter (fun w => decide (w.id ≠ src.id ∧ w.id ≠ dst.id)))).map anchorPoint
              ++ [anchorPoint dst]))
        ++ [(anchorPoint src ::
            ((findPathWaypoints dist src dst
              (pool.filter (fun w => decide (w.id ≠ src.id ∧ w.id ≠ dst.id)))).map anchorPoint
                ++ [anchorPoint dst])).getLastD defaultPathPoint] := rfl
  have hlastanch : (anchorPoint src ::
      ((findPathWaypoints dist src dst
        (pool.filter (fun w => decide (w.id ≠ src.id ∧ w.id ≠ dst.id)))).map anchorPoint
          ++ [anchorPoint dst])).getLastD defaultPathPoint = anchorPoint dst := by
    rw [show anchorPoint src ::
        ((findPathWaypoints dist src dst
          (pool.filter (fun w => decide (w.id ≠ src.id ∧ w.id ≠ dst.id)))).map anchorPoint
            ++ [anchorPoint dst])
      = (anchorPoint src ::
          (findPathWaypoints dist src dst
            (pool.filter (fun w => decide (w.id ≠ src.id ∧ w.id ≠ dst.id)))).map anchorPoint)
        ++ [anchorPoint dst] from rfl]
    exact getLastD_append_singleton _ _ _
  obtain ⟨B, restA, hBA⟩ : ∃ B restA,
      (findPathWaypoints dist src dst
        (pool.filter (fun w => decide (w.id ≠ src.id ∧ w.id ≠ dst.id)))).map anchorPoint
          ++ [anchorPoint dst] = B :: restA := by
    cases h : (findPathWaypoints dist src dst
        (pool.filter (fun w => decide (w.id ≠ src.id ∧ w.id ≠ dst.id)))).map anchorPoint
          ++ [anchorPoint dst] with
    | nil => simp at h
    | cons B restA => exact ⟨B, restA, rfl⟩
  have hpath : calculateOptimalPath dist pool src dst
      = anchorPoint src ::
          ((interpBetween (anchorPoint src) B ++ smoothSegs (B :: restA))
            ++ [anchorPoint dst]) := by
    rw [hdirect, hlastanch, hBA, smoothSegs_cons]
    simp
  refine ⟨?_, ?_, ?_⟩
  · have h1 := dist_le_pathDistance2 dist htri (anchorPoint src)
      ((interpBetween (anchorPoint src) B ++ smoothSegs (B :: restA))
        ++ [anchorPoint dst]) (by simp)
    have hlastp : ((anchorPoint src ::
        ((interpBetween (anchorPoint src) B ++ smoothSegs (B :: restA))
          ++ [anchorPoint dst])).getLastD defaultPathPoint) = anchorPoint dst := by
      rw [show anchorPoint src ::
          ((interpBetween (anchorPoint src) B ++ smoothSegs (B :: restA))
            ++ [anchorPoint dst])
        = (anchorPoint src ::
            (interpBetween (anchorPoint src) B ++ smoothSegs (B :: restA)))
          ++ [anchorPoint dst] from rfl]
      exact getLastD_append_singleton _ _ _
    rw [hlastp] at h1
    rw [hpath]
    simpa [anchorPoint] using h1
  · intro hlt
    have hsel : findPathWaypoints dist src dst
        (pool.filter (fun w => decide (w.id ≠ src.id ∧ w.id ≠ dst.id))) = [] := by
      rw [findPathWaypoints, if_pos hlt]
    rw [hdirect, hlastanch, hsel]
    simp [smoothSegs_cons, smoothSegs]
  · intro hadd hlt
    have hsel : findPathWaypoints dist src dst
        (pool.filter (fun w => decide (w.id ≠ src.id ∧ w.id ≠ dst.id))) = [] := by
      rw [findPathWaypoints, if_pos hlt]
    have hp : calculateOptimalPath dist pool src dst
        = anchorPoint src ::
            (interpBetween (anchorPoint src) (anchorPoint dst) ++ [anchorPoint dst]) := by
      rw [hdirect, hlastanch, hsel]
      simp [smoothSegs_cons, smoothSegs]
    rw [hp, calculatePathDistance, hadd (anchorPoint src) (anchorPoint dst)]
    simp [anchorPoint]

/-- The discrete metric on coordinates: 0 on equal points, 1 otherwise.
It satisfies the triangle inequality. -/
def oneDist : ℚ → ℚ → ℚ → ℚ → ℚ :=
  fun lat1 lng1 lat2 lng2 => if lat1 = lat2 ∧ lng1 = lng2 then 0 else 1

lemma oneDist_triangle : ∀ a1 b1 a2 b2 a3 b3 : ℚ,
    oneDist a1 b1 a3 b3 ≤ oneDist a1 b1 a2 b2 + oneDist a2 b2 a3 b3 := by
  intro a1 b1 a2 b2 a3 b3
  unfold oneDist
  by_cases h13 : a1 = a3 ∧ b1 = b3
  · rw [if_pos h13]
    split_ifs <;> norm_num
  · rw [if_neg h13]
    by_cases h12 : a1 = a2 ∧ b1 = b2
    · rw [if_pos h12]
      have h23 : ¬ (a2 = a3 ∧ b2 = b3) := by
        rintro ⟨h1, h2⟩
        exact h13 ⟨h12.1.trans h1, h12.2.trans h2⟩
      rw [if_neg h23]
      norm_num
    · rw [if_neg h12]
      split_ifs <;> norm_num

/-- Counterexample to C6 as stated: the claim that the cumulative distance
EQUALS the direct distance whenever the direct distance is below 5 km does
not follow from the code for a distance function satisfying the triangle
inequality.  Under the discrete metric, the route from (0,0) to (1,0) has
direct distance 1 < 5, yet its cumulative distance along the six path
points is 5 ≠ 1 (each of the five interpolated hops counts 1). -/
theorem claim_C6_counterexample_interpolation_not_additive :
    (∀ a1 b1 a2 b2 a3 b3 : ℚ,
      oneDist a1 b1 a3 b3 ≤ oneDist a1 b1 a2 b2 + oneDist a2 b2 a3 b3) ∧
    oneDist wpA.lat wpA.lng wpB.lat wpB.lng < 5 ∧
    calculatePathDistance oneDist (calculateOptimalPath oneDist [] wpA wpB) = 5 ∧
    oneDist wpA.lat wpA.lng wpB.lat wpB.lng = 1 ∧
    (5 : ℚ) ≠ 1 := by
  refine ⟨oneDist_triangle, ?_, ?_, ?_, by norm_num⟩
  · norm_num [oneDist, wpA, wpB]
  · norm_num [calculatePathDistance, calculateOptimalPath, findPathWaypoints,
      smoothSegs, interpBetween, anchorPoint, segDistances, oneDist,
      wpA, wpB, List.range_succ, sortByKey]
  · norm_num [oneDist, wpA, wpB]

/-- The everywhere-zero pseudometric (trivially triangle and additive). -/
def zeroDist : ℚ → ℚ → ℚ → ℚ → ℚ := fun _ _ _ _ => 0

/-- Witness for (amended) C6: the lower bound at the taxicab metric on a
concrete route, and the below-5-km equality at a distance function that is
additive along the linear subdivision. -/
theorem claim_C6_route_distance_witness :
    taxiDist wpA.lat wpA.lng wpC.lat wpC.lng
        ≤ calculatePathDistance taxiDist (calculateOptimalPath taxiDist [wpW] wpA wpC) ∧
    calculatePathDistance zeroDist (calculateOptimalPath zeroDist [] wpA wpB)
        = zeroDist wpA.lat wpA.lng wpB.lat wpB.lng := by
  constructor
  · refine (claim_C6_route_distance taxiDist wpA wpC [wpW] ?_).1
    intro a1 b1 a2 b2 a3 b3
    unfold taxiDist
    have h1 := abs_sub_le a3 a2 a1
    have h2 := abs_sub_le b3 b2 b1
    have h3 : |a3 - a1| = |a3 - a1| := rfl
    calc |a3 - a1| + |b3 - b1|
        ≤ (|a3 - a2| + |a2 - a1|) + (|b3 - b2| + |b2 - b1|) := add_le_add h1 h2
      _ = (|a2 - a1| + |b2 - b1|) + (|a3 - a2| + |b3 - b2|) := by ring
  · refine (claim_C6_route_distance zeroDist wpA wpB [] ?_).2.2 ?_ ?_
    · intro a1 b1 a2 b2 a3 b3
      norm_num [zeroDist]
    · intro p q
      norm_num [zeroDist, segDistances, interpBetween, List.range_succ]
    · norm_num [zeroDist]

/-- Characterisation of the segment walk of `getPositionAlongPath`: for a
target `t` between 0 and the total distance (all segments positive), the
walk stops at the first segment whose cumulative span contains `t` and
returns the linear interpolation inside that segment together with the
bearing of that segment. -/
lemma walkSegments_spec (dist bear : ℚ → ℚ → ℚ → ℚ → ℚ) :
    ∀ (pts : List PathPoint) (t : ℚ),
      (∀ d ∈ segDistances dist pts, 0 < d) → 0 ≤ t →
      t ≤ (segDistances dist pts).sum → segDistances dist pts ≠ [] →
      ∃ i : ℕ, ∃ hi : i + 1 < pts.length,
        ((segDistances dist pts).take i).sum ≤ t ∧
        t ≤ ((segDistances dist pts).take (i + 1)).sum ∧
        walkSegments dist bear pts t = some
          { lat := (pts.get ⟨i, Nat.lt_of_succ_lt hi⟩).lat
              + ((pts.get ⟨i + 1, hi⟩).lat - (pts.get ⟨i, Nat.lt_of_succ_lt hi⟩).lat)
                * ((t - ((segDistances dist pts).take i).sum)
                  / dist (pts.get ⟨i, Nat.lt_of_succ_lt hi⟩).lat
                      (pts.get ⟨i, Nat.lt_of_succ_lt hi⟩).lng
                      (pts.get ⟨i + 1, hi⟩).lat (pts.get ⟨i + 1, hi⟩).lng),
            lng := (pts.get ⟨i, Nat.lt_of_succ_lt hi⟩).lng
              + ((pts.get ⟨i + 1, hi⟩).lng - (pts.get ⟨i, Nat.lt_of_succ_lt hi⟩).lng)
                * ((t - ((segDistances dist pts).take i).sum)
                  / dist (pts.get ⟨i, Nat.lt_of_succ_lt hi⟩).lat
                      (pts.get ⟨i, Nat.lt_of_succ_lt hi⟩).lng
                      (pts.get ⟨i + 1, hi⟩).lat (pts.get ⟨i + 1, hi⟩).lng),
            heading := some (bear (pts.get ⟨i, Nat.lt_of_succ_lt hi⟩).lat
              (pts.get ⟨i, Nat.lt_of_succ_lt hi⟩).lng
              (pts.get ⟨i + 1, hi⟩).lat (pts.get ⟨i + 1, hi⟩).lng) } := by
  intro pts
  induction pts with
  | nil =>
    intro t hpos ht0 htle hne
    exact absurd rfl hne
  | cons p rest ih =>
    intro t hpos ht0 htle hne
    cases rest with
    | nil => exact absurd rfl hne
    | cons q rest2 =>
      have hd : 0 < dist p.lat p.lng q.lat q.lng :=
        hpos _ (by simp [segDistances])
      by_cases hc : t ≤ dist p.lat p.lng q.lat q.lng
      · refine ⟨0, by simp, by simpa using ht0, ?_, ?_⟩
        · simpa [segDistances] using hc
        · rw [walkSegments, if_pos hc]
          simp [segDistances]
      · have hd0 : 0 ≤ t - dist p.lat p.lng q.lat q.lng := by
          have := not_le.1 hc
          linarith
        have hpos2 : ∀ d ∈ segDistances dist (q :: rest2), 0 < d := by
          intro d hdm
          exact hpos d (by simp [segDistances, hdm])
        have hsum : (segDistances dist (p :: q :: rest2)).sum
            = dist p.lat p.lng q.lat q.lng + (segDistances dist (q :: rest2)).sum := by
          simp [segDistances]
        have htle2 : t - dist p.lat p.lng q.lat q.lng
            ≤ (segDistances dist (q :: rest2)).sum := by
          rw [hsum] at htle
          linarith
        have hne2 : segDistances dist (q :: rest2) ≠ [] := by
          cases rest2 with
          | nil =>
            exfalso
            have hz : (segDistances dist (q :: ([] : List PathPoint))).sum = 0 := by
              simp [segDistances]
            rw [hz] at htle2
            exact hc (by linarith)
          | cons r rs => simp [segDistances]
        obtain ⟨i, hi, h1, h2, h3⟩ := ih (t - dist p.lat p.lng q.lat q.lng)
          hpos2 hd0 htle2 hne2
        have htake1 : ((segDistances dist (p :: q :: rest2)).take (i + 1)).sum
            = dist p.lat p.lng q.lat q.lng
              + ((segDistances dist (q :: rest2)).take i).sum := by
          simp [segDistances]
        have htake2 : ((segDistances dist (p :: q :: rest2)).take (i + 2)).sum
            = dist p.lat p.lng q.lat q.lng
              + ((segDistances dist (q :: rest2)).take (i + 1)).sum := by
          simp [segDistances]
        refine ⟨i + 1, by simpa using Nat.succ_lt_succ hi, ?_, ?_, ?_⟩
        · rw [htake1]
          linarith
        · rw [htake2]
          linarith
        · rw [walkSegments, if_neg hc, h3]
          have hr : t - ((segDistances dist (p :: q :: rest2)).take (i + 1)).sum
              = t - dist p.lat p.lng q.lat q.lng
                - ((segDistances dist (q :: rest2)).take i).sum := by
            rw [htake1]
            ring
          simp only [List.get_cons_succ, hr]

/-- Characterisation of `getPositionAlongPath` for a strictly interior
progress: the result is the linear interpolation inside the segment whose
cumulative distance span contains `totalDistance * progress`, with the
bearing of that segment as heading. -/
lemma getPositionAlongPath_spec (dist bear : ℚ → ℚ → ℚ → ℚ → ℚ)
    (path : List PathPoint) (progress : ℚ)
    (hpos : ∀ d ∈ segDistances dist path, 0 < d)
    (hne : segDistances dist path ≠ [])
    (h0 : 0 < progress) (h1 : progress < 1) :
    ∃ i : ℕ, ∃ hi : i + 1 < path.length,
      ((segDistances dist path).take i).sum ≤ (segDistances dist path).sum * progress ∧
      (segDistances dist path).sum * progress
          ≤ ((segDistances dist path).take (i + 1)).sum ∧
      getPositionAlongPath dist bear path progress =
        { lat := (path.get ⟨i, Nat.lt_of_succ_lt hi⟩).lat
            + ((path.get ⟨i + 1, hi⟩).lat - (path.get ⟨i, Nat.lt_of_succ_lt hi⟩).lat)
              * (((segDistances dist path).sum * progress
                  - ((segDistances dist path).take i).sum)
                / dist (path.get ⟨i, Nat.lt_of_succ_lt hi⟩).lat
                    (path.get ⟨i, Nat.lt_of_succ_lt hi⟩).lng
                    (path.get ⟨i + 1, hi⟩).lat (path.get ⟨i + 1, hi⟩).lng),
          lng := (path.get ⟨i, Nat.lt_of_succ_lt hi⟩).lng
            + ((path.get ⟨i + 1, hi⟩).lng - (path.get ⟨i, Nat.lt_of_succ_lt hi⟩).lng)
              * (((segDistances dist path).sum * progress
                  - ((segDistances dist path).take i).sum)
                / dist (path.get ⟨i, Nat.lt_of_succ_lt hi⟩).lat
                    (path.get ⟨i, Nat.lt_of_succ_lt hi⟩).lng
                    (path.get ⟨i + 1, hi⟩).lat (path.get ⟨i + 1, hi⟩).lng),
          heading := some (bear (path.get ⟨i, Nat.lt_of_succ_lt hi⟩).lat
            (path.get ⟨i, Nat.lt_of_succ_lt hi⟩).lng
            (path.get ⟨i + 1, hi⟩).lat (path.get ⟨i + 1, hi⟩).lng) } := by
  have hsumpos : 0 < (segDistances dist path).sum := List.sum_pos _ hpos hne
  have ht0 : 0 ≤ (segDistances dist path).sum * progress :=
    mul_nonneg hsumpos.le h0.le
  have htle : (segDistances dist path).sum * progress ≤ (segDistances dist path).sum := by
    have := mul_le_mul_of_nonneg_left h1.le hsumpos.le
    simpa using this
  obtain ⟨i, hi, h2, h3, h4⟩ := walkSegments_spec dist bear path
    ((segDistances dist path).sum * progress) hpos ht0 htle hne
  refine ⟨i, hi, h2, h3, ?_⟩
  rw [getPositionAlongPath, if_neg (not_le.2 h0), if_neg (not_le.2 h1)]
  simp only [h4]

/-- Claim C1: for a vehicle in the MOVING state with a planned path of at
least two points (all consecutive distances positive), a set `startTime`
and positive elapsed time, speed and multiplier, the producer tick
computes `progress = min(elapsed / journeyDurationMs, 1)` with
`journeyDurationMs = (totalDistanceKm / (speed/3600)) * 1000 / playbackMultiplier`
and `totalDistanceKm` the sum of pairwise distances along the path; on
`progress ≥ 1` it snaps to the final path point, sets
`currentWaypoint = targetWaypoint`, status stopped,
`distanceTravelled = totalDistanceKm` and emits a completion event;
otherwise it sets `distanceTravelled = totalDistanceKm * progress` and
places the vehicle by linear interpolation inside the segment whose
cumulative span contains `totalDistanceKm * progress`, with the bearing of
that segment as heading. -/
theorem claim_C1_moving_tick (dist bear : ℚ → ℚ → ℚ → ℚ → ℚ) (mult : ℚ)
    (ws : Bool) (now st : ℤ) (v : Vehicle) (sd : SimData) (path : List PathPoint)
    (hsd : v.simulationData = some sd) (hpath : v.plannedPath = some path)
    (hdel : sd.isDelayed = false) (hst : sd.startTime = some st) (hst0 : st ≠ 0)
    (hmov : v.status = some St.moving) (hspeed : 0 < v.speed) (hmult : 0 < mult)
    (hseg : ∀ d ∈ segDistances dist path, 0 < d)
    (hlen : 2 ≤ path.length) (helap : 0 < now - st) :
    (1 ≤ ((now - st : ℤ) : ℚ)
        / (calculatePathDistance dist path / (v.speed / 3600) * 1000 / mult) →
      ∃ sd1 evs, simulateVehicleTick dist bear mult ws now v =
          ({ v with currentWaypoint := v.targetWaypoint, status := some St.stopped,
                    simulationData := some sd1 }, evs) ∧
        sd1.progress = some 1 ∧
        sd1.distanceTravelled = calculatePathDistance dist path ∧
        sd1.currentLat = some (path.getLastD defaultPathPoint).lat ∧
        sd1.currentLng = some (path.getLastD defaultPathPoint).lng ∧
        sd1.status = St.completed ∧
        SimEvent.toastJourneyComplete v.id ∈ evs) ∧
    (¬ 1 ≤ ((now - st : ℤ) : ℚ)
        / (calculatePathDistance dist path / (v.speed / 3600) * 1000 / mult) →
      ∃ sd1, simulateVehicleTick dist bear mult ws now v
          = ({ v with simulationData := some sd1 }, []) ∧
        sd1.progress = some (min (((now - st : ℤ) : ℚ)
          / (calculatePathDistance dist path / (v.speed / 3600) * 1000 / mult)) 1) ∧
        sd1.distanceTravelled = calculatePathDistance dist path
          * min (((now - st : ℤ) : ℚ)
            / (calculatePathDistance dist path / (v.speed / 3600) * 1000 / mult)) 1 ∧
        ∃ i : ℕ, ∃ hi : i + 1 < path.length,
          ((segDistances dist path).take i).sum
              ≤ calculatePathDistance dist path
                * min (((now - st : ℤ) : ℚ)
                  / (calculatePathDistance dist path / (v.speed / 3600) * 1000 / mult)) 1 ∧
          calculatePathDistance dist path
              * min (((now - st : ℤ) : ℚ)
                / (calculatePathDistance dist path / (v.speed / 3600) * 1000 / mult)) 1
            ≤ ((segDistances dist path).take (i + 1)).sum ∧
          sd1.currentLat = some ((path.get ⟨i, Nat.lt_of_succ_lt hi⟩).lat
            + ((path.get ⟨i + 1, hi⟩).lat - (path.get ⟨i, Nat.lt_of_succ_lt hi⟩).lat)
              * ((calculatePathDistance dist path
                  * min (((now - st : ℤ) : ℚ)
                    / (calculatePathDistance dist path / (v.speed / 3600) * 1000 / mult)) 1
                  - ((segDistances dist path).take i).sum)
                / dist (path.get ⟨i, Nat.lt_of_succ_lt hi⟩).lat
                    (path.get ⟨i, Nat.lt_of_succ_lt hi⟩).lng
                    (path.get ⟨i + 1, hi⟩).lat (path.get ⟨i + 1, hi⟩).lng)) ∧
          sd1.currentLng = some ((path.get ⟨i, Nat.lt_of_succ_lt hi⟩).lng
            + ((path.get ⟨i + 1, hi⟩).lng - (path.get ⟨i, Nat.lt_of_succ_lt hi⟩).lng)
              * ((calculatePathDistance dist path
                  * min (((now - st : ℤ) : ℚ)
                    / (calculatePathDistance dist path / (v.speed / 3600) * 1000 / mult)) 1
                  - ((segDistances dist path).take i).sum)
                / dist (path.get ⟨i, Nat.lt_of_succ_lt hi⟩).lat
                    (path.get ⟨i, Nat.lt_of_succ_lt hi⟩).lng
                    (path.get ⟨i + 1, hi⟩).lat (path.get ⟨i + 1, hi⟩).lng)) ∧
          sd1.heading = bear (path.get ⟨i, Nat.lt_of_succ_lt hi⟩).lat
            (path.get ⟨i, Nat.lt_of_succ_lt hi⟩).lng
            (path.get ⟨i + 1, hi⟩).lat (path.get ⟨i + 1, hi⟩).lng) := by
  have htr : truthyZ sd.startTime = some st := by rw [hst]; simp [truthyZ, hst0]
  have hstep := simulateVehicleTick_notDelayed dist bear mult ws now v sd path
    hsd hpath hdel
  have hne : segDistances dist path ≠ [] := by
    cases path with
    | nil => simp at hlen
    | cons p rest =>
      cases rest with
      | nil => simp at hlen
      | cons q rest2 => simp [segDistances]
  constructor
  · intro hc
    have h1c : (1:ℚ) ≤ min (((now - st : ℤ) : ℚ)
        / (calculatePathDistance dist path / (v.speed / 3600) * 1000 / mult)) 1 :=
      le_min hc le_rfl
    rw [hstep]
    simp only [movingTick, htr, hmov]
    rw [if_pos h1c]
    refine ⟨_, _, rfl, rfl, rfl, rfl, rfl, rfl, ?_⟩
    cases ws <;> simp
  · intro hc
    have h2c : ¬ (1:ℚ) ≤ min (((now - st : ℤ) : ℚ)
        / (calculatePathDistance dist path / (v.speed / 3600) * 1000 / mult)) 1 := by
      rw [not_le] at hc ⊢
      exact min_lt_iff.2 (Or.inl hc)
    have hprog0 : 0 < min (((now - st : ℤ) : ℚ)
        / (calculatePathDistance dist path / (v.speed / 3600) * 1000 / mult)) 1 := by
      have hsumpos : 0 < (segDistances dist path).sum := List.sum_pos _ hseg hne
      have hJDpos : 0 < calculatePathDistance dist path / (v.speed / 3600) * 1000 / mult := by
        have h36 : (0:ℚ) < v.speed / 3600 := div_pos hspeed (by norm_num)
        have := mul_pos (div_pos hsumpos h36) (show (0:ℚ) < 1000 by norm_num)
        exact div_pos this hmult
      have helq : (0:ℚ) < ((now - st : ℤ) : ℚ) := by exact_mod_cast helap
      exact lt_min (div_pos helq hJDpos) one_pos
    have hprog1 : min (((now - st : ℤ) : ℚ)
        / (calculatePathDistance dist path / (v.speed / 3600) * 1000 / mult)) 1 < 1 :=
      not_le.1 h2c
    obtain ⟨i, hi, hta, htb, heq⟩ := getPositionAlongPath_spec dist bear path
      (min (((now - st : ℤ) : ℚ)
        / (calculatePathDistance dist path / (v.speed / 3600) * 1000 / mult)) 1)
      hseg hne hprog0 hprog1
    rw [hstep]
    simp only [movingTick, htr, hmov]
    rw [if_neg h2c]
    refine ⟨_, rfl, rfl, rfl, i, hi, hta, htb, ?_, ?_, ?_⟩
    · show some (getPositionAlongPath dist bear path _).lat = _
      rw [heq]
      rfl
    · show some (getPositionAlongPath dist bear path _).lng = _
      rw [heq]
      rfl
    · show (getPositionAlongPath dist bear path _).heading.getD 0 = _
      rw [heq]
      rfl

/-- Witness for C1 at a concrete completing tick: a 1 km path at
3600 km/h, multiplier 2, started at 1000 ms and ticked at 2000 ms has
`elapsed/journeyDuration = 2 ≥ 1`, so the tick stops the vehicle at the
destination with progress 1. -/
theorem claim_C1_moving_tick_witness :
    (simulateVehicleTick taxiDist taxiDist 2 false 2000 vMovC4w).1.status
        = some St.stopped ∧
    (simulateVehicleTick taxiDist taxiDist 2 false 2000 vMovC4w).1.simulationData.bind
        (fun s => s.progress) = some 1 ∧
    (simulateVehicleTick taxiDist taxiDist 2 false 2000 vMovC4w).1.currentWaypoint
        = vMovC4w.targetWaypoint := by
  obtain ⟨sd1, evs, heq, hp, hdt, hla, hln, hstat, hmem⟩ :=
    (claim_C1_moving_tick taxiDist taxiDist 2 false 2000 1000 vMovC4w sdMovC4w
      pathC2 (by simp [vMovC4w]) (by simp [vMovC4w]) (by simp [sdMovC4w])
      (by simp [sdMovC4w]) (by norm_num) (by simp [vMovC4w])
      (by norm_num [vMovC4w]) (by norm_num)
      (by
        intro d hd
        simp [segDistances, pathC2, taxiDist] at hd
        rw [hd]
        norm_num)
      (by norm_num [pathC2]) (by norm_num)).1
      (by norm_num [calculatePathDistance, segDistances, pathC2, taxiDist, vMovC4w])
  refine ⟨?_, ?_, ?_⟩
  · rw [heq]
  · rw [heq]
    simp [hp]
  · rw [heq]
